import Mathlib

/-!
Verification of the tcpy traversal-and-transfer engine (tcpy.c).

This file gives a shallow embedding of the core of tcpy.c: the checksum
accumulator (ChecksumAdd), the interrupt poller (KeyboardCheck), the clock
helper (NanoTime), the throttle controller state threaded through the copy
loop of TimedCopyFile, the per-file transfer state machine (TimedCopyFile)
and the recursive tree walker (TimedCopy, including DirectoryValidate at its
call site and the mirror cleanup pass).  Machine integers are modelled as
Nat with explicit reduction modulo 2 to the word width where the C code can
wrap; fallible system calls are modelled by an environment of outcomes, and
the observable behaviour of a run is a trace of events, one event per
filesystem call or log line.
-/

namespace Tcpy

/-! ## Constants from tcpy.c -/

def LNBIGBUFFER : Nat := 32768
def LNSZ : Nat := 300
def COPYCOUNT : Nat := 50
def ERROR_TCPY : Nat := 1
def ERROR_TCPY_USAGE : Nat := 2
def ERROR_TCPY_MEM : Nat := 3
def ERROR_TCPY_CIRC : Nat := 4
def ERROR_TCPY_STOP : Nat := 5
def MODE_COPY : Nat := 0
def MODE_DEL : Nat := 1
def MODE_MIRROR : Nat := 2

/-- Modulus of the 64-bit unsigned types used by tcpy.c on its LP64 target
(unsigned long for checksums, unsigned long long TNSEC for durations). -/
def W64 : Nat := 2 ^ 64

/-! ## Checksum accumulator (ChecksumAdd, tcpy.c lines 151-168)

The C state is an unsigned long, which is 64 bits wide on the LP64 platforms
the program targets (the header says it was tested under FreeBSD 12.2).  One
loop iteration records bit 31 of the state, XORs in the low 8 bits of the
byte, shifts the whole word left by one bit (wrapping modulo 2 ^ 64), and
sets bit 0 when the recorded bit 31 was set.  Nothing masks the state back
to 32 bits. -/

def checksumStep (c b : Nat) : Nat :=
  let m := c &&& 0x80000000
  let x := ((c ^^^ (b &&& 0xFF)) <<< 1) % W64
  if m ≠ 0 then x ||| 1 else x

/-- ChecksumAdd over a whole buffer: fold checksumStep over the bytes. -/
def checksumAdd (buf : List Nat) (c : Nat) : Nat :=
  buf.foldl checksumStep c

/-- Checksum of a file body: ChecksumAdd from the documented seed 0. -/
def checksum (buf : List Nat) : Nat :=
  checksumAdd buf 0

/-- Modelled from the spec sentence for C2: XOR the low 8 bits of the byte
into a 32-bit state, then rotate the 32-bit word left by one bit, the bit
leaving the top re-entering at the bottom.  This is the step the claim
asserts; it is compared against checksumStep, which is taken from the
source. -/
def checksumStep32 (c b : Nat) : Nat :=
  let x := (c ^^^ (b &&& 0xFF)) % 2 ^ 32
  ((x <<< 1) % 2 ^ 32) ||| (x >>> 31)

def checksumAdd32 (buf : List Nat) (c : Nat) : Nat :=
  buf.foldl checksumStep32 c

def checksum32 (buf : List Nat) : Nat :=
  checksumAdd32 buf 0

/-! ## Interrupt poller (KeyboardCheck, tcpy.c lines 190-236)

The poller is driven by a script of poll outcomes: none means select
reported no pending input, some c means the pending character c was read by
getchar.  Each loop iteration consumes one outcome.  The trace records the
polls, the 3 millisecond sleeps (usleep(3000); the adjacent comment claims
0.3 seconds) and the printed messages. -/

inductive KEv where
  | poll
  | sleep3ms
  | msgPause
  | msgResume
  | msgPauseReq
  deriving DecidableEq, Repr

structure KRes where
  trace : List KEv
  ret : Option Nat
  pav : Bool
  deriving DecidableEq, Repr

/-- Body of the do-while loop of KeyboardCheck.  pav is giPauseAfterVerif.
The result field ret is some err when the function returned (0 meaning
Continue) and none when the script ran out while the loop was still pausing,
in which case the real loop would re-poll forever until new input arrives.
Note that the usleep sits inside the input-pending branch of the source, so
an iteration whose select reports nothing pending never sleeps. -/
def kbLoop (pause : Bool) (pav : Bool) : List (Option Char) → KRes
  | [] => ⟨[], none, pav⟩
  | inp :: rest =>
    match inp with
    | none =>
        if pause then
          let r := kbLoop pause pav rest
          ⟨KEv.poll :: r.trace, r.ret, r.pav⟩
        else ⟨[KEv.poll], some 0, pav⟩
    | some ch =>
        if ch = ' ' ∨ ch = 'p' ∨ ch = 'P' then
          let pause2 := !pause
          if pause2 then
            let r := kbLoop pause2 pav rest
            ⟨KEv.poll :: KEv.msgPause :: KEv.sleep3ms :: r.trace, r.ret, r.pav⟩
          else ⟨[KEv.poll, KEv.msgResume], some 0, pav⟩
        else if ch = Char.ofNat 27 ∨ ch = 'q' ∨ ch = 'Q' then
          ⟨KEv.poll :: (if pause then [KEv.sleep3ms] else []),
            some ERROR_TCPY_STOP, pav⟩
        else if ch = 'v' ∨ ch = 'V' then
          if pause then
            let r := kbLoop pause true rest
            ⟨KEv.poll :: KEv.msgPauseReq :: KEv.sleep3ms :: r.trace, r.ret, r.pav⟩
          else ⟨[KEv.poll, KEv.msgPauseReq], some 0, true⟩
        else
          if pause then
            let r := kbLoop pause pav rest
            ⟨KEv.poll :: KEv.sleep3ms :: r.trace, r.ret, r.pav⟩
          else ⟨[KEv.poll], some 0, pav⟩

/-- KeyboardCheck: print the pause message when entering with an induced
pause, then run the poll loop. -/
def keyboardCheck (induced : Bool) (pav : Bool) (inputs : List (Option Char)) : KRes :=
  let r := kbLoop induced pav inputs
  ⟨(if induced then [KEv.msgPause] else []) ++ r.trace, r.ret, r.pav⟩

/-- Rendering of the claim for C9: scanning the trace, every poll after the
first must have a sleep between it and the previous poll.  The Bool argument
is true when a poll has been seen since the last sleep. -/
def sleepRePollOk : Bool → List KEv → Bool
  | _, [] => true
  | pollSeen, KEv.poll :: r => if pollSeen then false else sleepRePollOk true r
  | _, KEv.sleep3ms :: r => sleepRePollOk false r
  | pollSeen, _ :: r => sleepRePollOk pollSeen r

/-! ## NanoTime (tcpy.c lines 245-261) -/

def ONESECINNANO : Nat := 1000000000

/-- NanoTime.  The argument ret is the return value of clock_gettime, which
is 0 on success and nonzero on failure, and sec, nsec are the timespec
fields.  The source tests `if (clock_gettime(...))`, which is true exactly
when the call failed, so the nanosecond value is assembled from the clock
only on failure and every successful clock read yields 0. -/
def nanoTime (ret : Int) (sec nsec : Nat) : Nat :=
  if ret ≠ 0 then sec * ONESECINNANO + nsec else 0

/-! ## Throttle controller (globals giNanoPrev / giNanoFastest and the
copy-loop arithmetic of TimedCopyFile, tcpy.c lines 614-631) -/

structure ThrState where
  prev : Nat
  fastest : Nat
  deriving DecidableEq, Repr

/-- Unsigned 64-bit subtraction a - b on TNSEC values. -/
def wrapSub (a b : Nat) : Nat := (a % W64 + (W64 - b % W64)) % W64

/-- Sleep duration computed before a write (lines 614-619): iNano is
giNanoPrev - giNanoFastest in unsigned arithmetic, scaled by
iRead / LNBIGBUFFER when the read is partial; the product wraps modulo
2 ^ 64 before the division, as the C unsigned multiplication does. -/
def throttleDelay (s : ThrState) (r : Nat) : Nat :=
  let n := wrapSub s.prev s.fastest
  if r ≠ LNBIGBUFFER then (n * r) % W64 / LNBIGBUFFER else n

/-- Update of giNanoPrev and giNanoFastest after a write (lines 627-631):
the measured duration d is normalised to a full-buffer rate when the read
was partial, and giNanoFastest is lowered to the new value when it is
smaller than the fastest seen, or adopted outright when no measurement
exists yet (fastest = 0). -/
def throttleStep (s : ThrState) (d r : Nat) : ThrState :=
  let p0 := d % W64
  let p := if r ≠ LNBIGBUFFER then (p0 * LNBIGBUFFER) % W64 / r else p0
  let f := if s.fastest = 0 ∨ p < s.fastest then p else s.fastest
  ⟨p, f⟩

/-- Throttle states reachable in a run: both globals start at 0 and only
throttleStep updates them, with reads of 1 .. LNBIGBUFFER bytes. -/
inductive ThrReach : ThrState → Prop where
  | start : ThrReach ⟨0, 0⟩
  | next (s : ThrState) (d r : Nat) (h1 : 0 < r) (h2 : r ≤ LNBIGBUFFER) :
      ThrReach s → ThrReach (throttleStep s d r)

/-! ## Per-file transfer state machine (TimedCopyFile, tcpy.c lines 493-769)

The machine is modelled as a pure function from the probed state of both
endpoints and an environment of system-call outcomes to an error code, an
event trace (one event per filesystem call or log line), the resulting
destination file, the updated globals and the survival of the source file.
Keyboard polls are modelled as returning Continue and giPauseAfterVerif as
false; the interrupt poller itself is verified separately above. -/

/-- Stat fields of a file as compared by TimedCopyFile: st_size and the
st_mtim seconds and nanoseconds (a missing destination is represented by
the zeroed snapshot of lines 526-535). -/
structure Snap where
  size : Int
  sec : Int
  nsec : Int
  deriving DecidableEq, Repr

/-- A destination file: its stat fields and its byte content. -/
structure DFile where
  snap : Snap
  bytes : List Nat
  deriving DecidableEq, Repr

/-- Outcomes of the fallible system calls made by one TimedCopyFile call.
The durs stream holds the write duration measured by the NanoTime pair
around each write, one entry per buffer; with the inverted success test of
NanoTime these are 0 on a healthy system, but the model keeps them
abstract.  The readback field is the content the final verification reads
from disk; none means it reads exactly what the destination holds. -/
structure FEnv where
  chkOpensOk : Bool
  unlinkDestOk : Bool
  openSrcOk : Bool
  createDestOk : Bool
  writesOk : Bool
  retimeOk : Bool
  verifyOpenOk : Bool
  readback : Option (List Nat)
  cleanupUnlinkOk : Bool
  unlinkSrcOk : Bool
  mkdirOk : Bool
  mirrorUnlinkOk : Bool
  durs : List Nat
  deriving DecidableEq, Repr

/-- Environment in which every system call succeeds and verification reads
back exactly what the destination file holds. -/
def FEnv.allOk (e : FEnv) : Prop :=
  e.chkOpensOk = true ∧ e.unlinkDestOk = true ∧ e.openSrcOk = true ∧
  e.createDestOk = true ∧ e.writesOk = true ∧ e.retimeOk = true ∧
  e.verifyOpenOk = true ∧ e.readback = none ∧ e.cleanupUnlinkOk = true ∧
  e.unlinkSrcOk = true ∧ e.mkdirOk = true ∧ e.mirrorUnlinkOk = true

instance (e : FEnv) : Decidable e.allOk := by
  unfold FEnv.allOk
  infer_instance

/-- Process-wide counters and throttle state: giNanoPrev and giNanoFastest
inside thr, then giFileCount, giCopyByteCount and giTotalByteCount. -/
structure Globals where
  thr : ThrState
  fileCount : Nat
  copyBytes : Nat
  totalBytes : Nat
  deriving DecidableEq, Repr

/-- One observable event: a filesystem call or a log line. -/
inductive Ev where
  | verifyBothLog
  | deleteDiffLog (dsize : Option Int) (sec nsec chk : Bool)
  | unlinkDest
  | copyLog
  | createDest
  | throttleSleep (n : Nat)
  | writeChunk (n : Nat)
  | retimeDest
  | cleanupUnlink
  | warnDeleteFailed
  | verifyDestLog
  | deleteSrcLog
  | unlinkSrc
  | pauseFilesLog
  | gbDoneLog
  | gbSleep (n : Nat)
  | mkdirCall
  | mirrorDeleteLog
  | mirrorUnlink
  | warnMirrorDelete
  | nameTooLongErr
  deriving DecidableEq, Repr

structure LoopRes where
  err : Nat
  trace : List Ev
  thr : ThrState
  chk : Nat
  written : List Nat
  cb : Nat
  tb : Nat
  deriving DecidableEq, Repr

/-- The read-throttle-checksum-write loop of TimedCopyFile (lines 605-643).
Each iteration reads up to LNBIGBUFFER bytes of the remaining source; a
read of 0 ends the loop; the byte counters are bumped, the throttle sleep
happens unless in faster mode, the chunk is folded into the destination
checksum, the write is issued and its measured duration (head of durs)
updates the throttle state before the short-write test; a write is short
exactly when writesOk is false, which is fatal for the file. -/
def copyLoopF (faster writesOk : Bool) :
    Nat → List Nat → List Nat → ThrState → Nat → List Nat → Nat → Nat → LoopRes
  | 0, _, _, thr, chk, written, cb, tb => ⟨0, [], thr, chk, written, cb, tb⟩
  | fuel + 1, durs, pending, thr, chk, written, cb, tb =>
    if pending = [] then ⟨0, [], thr, chk, written, cb, tb⟩
    else
      let chunk := pending.take LNBIGBUFFER
      let r := chunk.length
      let t1 := if faster then [] else [Ev.throttleSleep (throttleDelay thr r)]
      let chk2 := checksumAdd chunk chk
      let thr2 := throttleStep thr (durs.headD 0) r
      let t2 := t1 ++ [Ev.writeChunk r]
      if writesOk then
        if r = LNBIGBUFFER then
          let rest := copyLoopF faster writesOk fuel durs.tail
            (pending.drop LNBIGBUFFER) thr2 chk2 (written ++ chunk) (cb + r) (tb + r)
          ⟨rest.err, t2 ++ rest.trace, rest.thr, rest.chk, rest.written, rest.cb, rest.tb⟩
        else ⟨0, t2, thr2, chk2, written ++ chunk, cb + r, tb + r⟩
      else ⟨ERROR_TCPY, t2, thr2, chk2, written, cb + r, tb + r⟩

/-- The loop at its call site: every iteration that recurses consumes
LNBIGBUFFER bytes of the remaining source, so a fuel of one more than the
byte count can never run out. -/
def copyLoop (faster writesOk : Bool) (durs : List Nat) (pending : List Nat)
    (thr : ThrState) (chk : Nat) (written : List Nat) (cb tb : Nat) : LoopRes :=
  copyLoopF faster writesOk (pending.length + 1) durs pending thr chk written cb tb

/-- Stale-destination delete (lines 557-578): when a destination file
exists, log the diff line citing each mismatched dimension (the byte delta
printed is destination size minus source size), then unless in test run
unlink the destination; an unlink failure is fatal. -/
def staleDelete (testRun : Bool) (env : FEnv) (srcSnap dstSnap : Snap)
    (dstExists : Bool) (sChk dChk : Nat) (dst : Option DFile) :
    Nat × List Ev × Option DFile :=
  if dstExists then
    let ev := Ev.deleteDiffLog
      (if srcSnap.size ≠ dstSnap.size then some (dstSnap.size - srcSnap.size) else none)
      (decide (srcSnap.sec ≠ dstSnap.sec)) (decide (srcSnap.nsec ≠ dstSnap.nsec))
      (decide (sChk ≠ dChk))
    if testRun then (0, [ev], dst)
    else if env.unlinkDestOk then (0, [ev, Ev.unlinkDest], none)
    else (ERROR_TCPY, [ev, Ev.unlinkDest], dst)
  else (0, [], dst)

structure CopyRes where
  err : Nat
  trace : List Ev
  dst : Option DFile
  thr : ThrState
  cb : Nat
  tb : Nat
  sChk : Nat
  deriving DecidableEq, Repr

/-- Copy operation block (lines 581-696): the log line, then unless in test
run: open the source, create the destination with the source permission
bits (truncating), run the buffer loop, then compare the source checksum
with the accumulated one when a nonzero source checksum exists, or adopt
the accumulated one; on any error so far attempt the cleanup unlink of the
destination, warning when it fails; otherwise set the destination times to
the source times, which is fatal on failure. -/
def copyBlock (testRun faster : Bool) (env : FEnv) (srcSnap : Snap)
    (srcBytes : List Nat) (sChk : Nat) (dst : Option DFile)
    (thr : ThrState) (cb tb : Nat) : CopyRes :=
  if testRun then ⟨0, [Ev.copyLog], dst, thr, cb, tb, sChk⟩
  else
    let inner : CopyRes :=
      if env.openSrcOk = false then ⟨ERROR_TCPY, [], dst, thr, cb, tb, sChk⟩
      else if env.createDestOk = false then ⟨ERROR_TCPY, [], dst, thr, cb, tb, sChk⟩
      else
        let L := copyLoop faster env.writesOk env.durs srcBytes thr 0 [] cb tb
        let dst2 : Option DFile := some ⟨⟨(L.written.length : Int), 0, 0⟩, L.written⟩
        if L.err ≠ 0 then ⟨L.err, Ev.createDest :: L.trace, dst2, L.thr, L.cb, L.tb, sChk⟩
        else if sChk ≠ 0 then
          if sChk ≠ L.chk then
            ⟨ERROR_TCPY, Ev.createDest :: L.trace, dst2, L.thr, L.cb, L.tb, sChk⟩
          else ⟨0, Ev.createDest :: L.trace, dst2, L.thr, L.cb, L.tb, sChk⟩
        else ⟨0, Ev.createDest :: L.trace, dst2, L.thr, L.cb, L.tb, L.chk⟩
    if inner.err ≠ 0 then
      let delOk := inner.dst.isSome && env.cleanupUnlinkOk
      ⟨inner.err,
        Ev.copyLog :: inner.trace ++ [Ev.cleanupUnlink] ++
          (if delOk then [] else [Ev.warnDeleteFailed]),
        if delOk then none else inner.dst, inner.thr, inner.cb, inner.tb, inner.sChk⟩
    else if env.retimeOk then
      ⟨0, Ev.copyLog :: inner.trace ++ [Ev.retimeDest],
        inner.dst.map (fun f => ⟨⟨f.snap.size, srcSnap.sec, srcSnap.nsec⟩, f.bytes⟩),
        inner.thr, inner.cb, inner.tb, inner.sChk⟩
    else ⟨ERROR_TCPY, Ev.copyLog :: inner.trace ++ [Ev.retimeDest],
      inner.dst, inner.thr, inner.cb, inner.tb, inner.sChk⟩

/-- Verify-destination block (lines 698-715): always log, skip the work in
test run, otherwise recompute the destination checksum from disk (the
readback, defaulting to the current destination content) and compare; on
mismatch the destination is unlinked best-effort with a warning on failure.
The Bool result is true when the block completed with matching checksums or
was skipped by test run. -/
def verifyBlock (testRun : Bool) (env : FEnv) (sChk : Nat) (dst : Option DFile) :
    Nat × List Ev × Option DFile × Bool :=
  if testRun then (0, [Ev.verifyDestLog], dst, true)
  else if env.verifyOpenOk = false then (ERROR_TCPY, [Ev.verifyDestLog], dst, false)
  else
    let rb := env.readback.getD ((dst.map DFile.bytes).getD [])
    if sChk ≠ checksum rb then
      let delOk := dst.isSome && env.cleanupUnlinkOk
      (ERROR_TCPY,
        Ev.verifyDestLog :: Ev.cleanupUnlink ::
          (if delOk then [] else [Ev.warnDeleteFailed]),
        if delOk then none else dst, false)
    else (0, [Ev.verifyDestLog], dst, true)

/-- Source deletion in move mode (lines 718-730): log, then unless in test
run unlink the source; failure is fatal and leaves the source in place. -/
def moveDelete (mode : Nat) (testRun : Bool) (env : FEnv) : Nat × List Ev × Bool :=
  if mode = MODE_DEL then
    if testRun then (0, [Ev.deleteSrcLog], true)
    else if env.unlinkSrcOk then (0, [Ev.deleteSrcLog, Ev.unlinkSrc], false)
    else (ERROR_TCPY, [Ev.deleteSrcLog, Ev.unlinkSrc], true)
  else (0, [], true)

/-- Bookkeeping after a successful file (lines 732-766): bump the file
counter, pause ten seconds after COPYCOUNT files unless in faster mode, or
after a gigabyte of copied bytes log and pause proportionally;
giPauseAfterVerif is modelled as false, so the induced keyboard pause is
not taken. -/
def bookkeeping (faster : Bool) (g : Globals) : List Ev × Globals :=
  let fc := g.fileCount + 1
  if COPYCOUNT ≤ fc ∧ faster = false then
    ([Ev.pauseFilesLog], {g with fileCount := 0})
  else if 1073741824 < g.copyBytes then
    let c2 := g.copyBytes * 30 / 1024
    (Ev.gbDoneLog :: (if faster then [] else [Ev.gbSleep c2]),
      {g with fileCount := 0, copyBytes := 0})
  else ([], {g with fileCount := fc})

structure FRes where
  err : Nat
  trace : List Ev
  srcLives : Bool
  dstAfter : Option DFile
  g : Globals
  verifiedOk : Bool
  deriving DecidableEq, Repr

/-- TimedCopyFile (lines 493-769): a missing source is fatal; a missing
destination is given the zeroed snapshot; when both sizes are equal and
nonzero both checksums are computed (skipped in test run); when any of
size, mtime seconds, mtime nanoseconds or checksum differs, the stale
destination is deleted, the file is copied and the destination verified;
then the source is deleted in move mode and the pacing bookkeeping runs.
The verifiedOk field is true exactly when the verify block completed
successfully in this call. -/
def timedCopyFile (mode : Nat) (testRun faster : Bool) (srcExists : Bool)
    (srcSnap : Snap) (srcBytes : List Nat) (dst : Option DFile)
    (env : FEnv) (g : Globals) : FRes :=
  if srcExists = false then ⟨ERROR_TCPY, [], false, dst, g, false⟩
  else
    let dstSnap := (dst.map DFile.snap).getD ⟨0, 0, 0⟩
    let cmp : Nat × List Ev × Nat × Nat :=
      if srcSnap.size ≠ 0 ∧ dstSnap.size ≠ 0 ∧ srcSnap.size = dstSnap.size then
        if testRun then (0, [Ev.verifyBothLog], 0, 0)
        else if env.chkOpensOk then
          (0, [Ev.verifyBothLog], checksum srcBytes,
            checksum ((dst.map DFile.bytes).getD []))
        else (ERROR_TCPY, [Ev.verifyBothLog], 0, 0)
      else (0, [], 0, 0)
    let (e1, t1, sChk, dChk) := cmp
    if e1 ≠ 0 then ⟨e1, t1, true, dst, g, false⟩
    else
      let step5 : Nat × List Ev × Option DFile × Globals × Bool :=
        if srcSnap.size ≠ dstSnap.size ∨ srcSnap.sec ≠ dstSnap.sec ∨
            srcSnap.nsec ≠ dstSnap.nsec ∨ sChk ≠ dChk then
          let (e2, t2, dst2) :=
            staleDelete testRun env srcSnap dstSnap dst.isSome sChk dChk dst
          if e2 ≠ 0 then (e2, t1 ++ t2, dst2, g, false)
          else
            let c := copyBlock testRun faster env srcSnap srcBytes sChk dst2
              g.thr g.copyBytes g.totalBytes
            let g3 : Globals := ⟨c.thr, g.fileCount, c.cb, c.tb⟩
            if c.err ≠ 0 then (c.err, t1 ++ t2 ++ c.trace, c.dst, g3, false)
            else
              let (e4, t4, dst4, vOk) := verifyBlock testRun env c.sChk c.dst
              (e4, t1 ++ t2 ++ c.trace ++ t4, dst4, g3, vOk)
        else (0, t1, dst, g, false)
      let (e5, t5, dst5, g5, vOk) := step5
      if e5 ≠ 0 then ⟨e5, t5, true, dst5, g5, vOk⟩
      else
        let (e6, t6, srcAf) := moveDelete mode testRun env
        if e6 ≠ 0 then ⟨e6, t5 ++ t6, srcAf, dst5, g5, vOk⟩
        else
          let (t7, g7) := bookkeeping faster g5
          ⟨0, t5 ++ t6 ++ t7, srcAf, dst5, g7, vOk⟩

/-- The fifth step of TimedCopyFile (stale delete, copy and verify, lines
578-715) as a standalone function of the comparison results, for reasoning
about the move-mode tail in isolation. -/
def tcfStep5 (testRun faster : Bool) (srcSnap : Snap) (srcBytes : List Nat)
    (dst : Option DFile) (env : FEnv) (g : Globals) (t1 : List Ev)
    (sChk dChk : Nat) : Nat × List Ev × Option DFile × Globals × Bool :=
  let dstSnap := (dst.map DFile.snap).getD ⟨0, 0, 0⟩
  if srcSnap.size ≠ dstSnap.size ∨ srcSnap.sec ≠ dstSnap.sec ∨
      srcSnap.nsec ≠ dstSnap.nsec ∨ sChk ≠ dChk then
    let (e2, t2, dst2) :=
      staleDelete testRun env srcSnap dstSnap dst.isSome sChk dChk dst
    if e2 ≠ 0 then (e2, t1 ++ t2, dst2, g, false)
    else
      let c := copyBlock testRun faster env srcSnap srcBytes sChk dst2
        g.thr g.copyBytes g.totalBytes
      let g3 : Globals := ⟨c.thr, g.fileCount, c.cb, c.tb⟩
      if c.err ≠ 0 then (c.err, t1 ++ t2 ++ c.trace, c.dst, g3, false)
      else
        let (e4, t4, dst4, vOk) := verifyBlock testRun env c.sChk c.dst
        (e4, t1 ++ t2 ++ c.trace ++ t4, dst4, g3, vOk)
  else (0, t1, dst, g, false)

/-- The tail of TimedCopyFile after the copy-and-verify step: the abort on
a step error, the move-mode source deletion and the bookkeeping (lines
716-766), as a standalone function of the step result. -/
def tcfTail (mode : Nat) (testRun faster : Bool) (env : FEnv)
    (step5 : Nat × List Ev × Option DFile × Globals × Bool) : FRes :=
  let (e5, t5, dst5, g5, vOk) := step5
  if e5 ≠ 0 then ⟨e5, t5, true, dst5, g5, vOk⟩
  else
    let (e6, t6, srcAf) := moveDelete mode testRun env
    if e6 ≠ 0 then ⟨e6, t5 ++ t6, srcAf, dst5, g5, vOk⟩
    else
      let (t7, g7) := bookkeeping faster g5
      ⟨0, t5 ++ t6 ++ t7, srcAf, dst5, g7, vOk⟩

/-! ## Tree walker (TimedCopy, tcpy.c lines 778-980)

Directories are modelled as trees carrying the stat identity (st_dev,
st_ino) that the circular-copy guard compares.  The walker threads the
guard globals giSt_dev / giSt_ino and the counter globals through the
traversal and mutates the destination tree.  Path strings are abstracted
to the one fact TimedCopy uses about them, the strcmp of the two directory
paths: recursive calls append the same entry name to both directories, so
the paths of the children of distinct directories stay distinct and the
recursion passes pathsDiffer = true, exactly as the strcmp of the source
does at every level. -/

mutual
inductive SEntry where
  | file (snap : Snap) (bytes : List Nat) : SEntry
  | dir (sub : SNode) : SEntry
inductive SNode where
  | node (id : Nat × Nat) (entries : List (String × SEntry)) : SNode
end

mutual
inductive DEntry where
  | file (f : DFile) : DEntry
  | dir (sub : DNode) : DEntry
inductive DNode where
  | node (id : Nat × Nat) (entries : List (String × DEntry)) : DNode
end

def SNode.id : SNode → Nat × Nat
  | .node i _ => i

def SNode.entries : SNode → List (String × SEntry)
  | .node _ es => es

def DNode.id : DNode → Nat × Nat
  | .node i _ => i

def DNode.entries : DNode → List (String × DEntry)
  | .node _ es => es

def lookupD : List (String × DEntry) → String → Option DEntry
  | [], _ => none
  | (n, e) :: rest, name => if n = name then some e else lookupD rest name

/-- Destination file of the given name, as FilenameExist sees it: present
only when the entry exists and is a regular file. -/
def getFileD (es : List (String × DEntry)) (name : String) : Option DFile :=
  match lookupD es name with
  | some (DEntry.file f) => some f
  | _ => none

/-- Replace or remove the destination file entry of the given name. -/
def setFileD : List (String × DEntry) → String → Option DFile → List (String × DEntry)
  | [], name, some f => [(name, DEntry.file f)]
  | [], _, none => []
  | (n, e) :: rest, name, v =>
      if n = name then
        match v with
        | some f => (n, DEntry.file f) :: rest
        | none => rest
      else (n, e) :: setFileD rest name v

/-- Replace or add the destination subdirectory entry of the given name. -/
def setDirD : List (String × DEntry) → String → DNode → List (String × DEntry)
  | [], name, d => [(name, DEntry.dir d)]
  | (n, e) :: rest, name, d =>
      if n = name then (n, DEntry.dir d) :: rest
      else (n, e) :: setDirD rest name d

def lookupS : List (String × SEntry) → String → Option SEntry
  | [], _ => none
  | (n, e) :: rest, name => if n = name then some e else lookupS rest name

/-- FilenameExist on the source side: a regular file of that name exists. -/
def srcHasRegFile (es : List (String × SEntry)) (name : String) : Bool :=
  match lookupS es name with
  | some (SEntry.file _ _) => true
  | _ => false

/-- Mirror cleanup pass (lines 910-943): enumerate the destination entries
after the copy pass; every regular file with no same-named regular file in
the source is logged and, unless in test run, unlinked; an unlink failure
prints a warning and the pass carries on.  Directories are skipped by the
DT_REG test.  The pass has no error result at all. -/
def mirrorCleanup (testRun mirrorUnlinkOk : Bool)
    (srcEntries : List (String × SEntry)) :
    List (String × DEntry) → List Ev × List (String × DEntry)
  | [] => ([], [])
  | (n, e) :: rest =>
    let (t, es) := mirrorCleanup testRun mirrorUnlinkOk srcEntries rest
    match e with
    | DEntry.dir _ => (t, (n, e) :: es)
    | DEntry.file f =>
      if srcHasRegFile srcEntries n then (t, (n, DEntry.file f) :: es)
      else
        let evs := Ev.mirrorDeleteLog ::
          (if testRun then [] else
            Ev.mirrorUnlink :: (if mirrorUnlinkOk then [] else [Ev.warnMirrorDelete]))
        if testRun ∨ mirrorUnlinkOk = false then (evs ++ t, (n, DEntry.file f) :: es)
        else (evs ++ t, es)

/-- DirectoryValidate (lines 333-408) at its call site inside the walker
(line 886), where the parent destination directory exists, so at most one
level is created.  The mkdir call is not conditioned on the test-run flag
anywhere in DirectoryValidate.  When an entry of that name exists as a
regular file, DirectoryExist fails and the attempted mkdir fails. -/
def validateSubdir (mkdirOk : Bool) (dst : DNode) (name : String) :
    Nat × List Ev × DNode :=
  match lookupD dst.entries name with
  | some (DEntry.dir sub) => (0, [], sub)
  | some (DEntry.file _) => (ERROR_TCPY, [Ev.mkdirCall], DNode.node (0, 0) [])
  | none =>
      if mkdirOk then (0, [Ev.mkdirCall], DNode.node (0, 0) [])
      else (ERROR_TCPY, [Ev.mkdirCall], DNode.node (0, 0) [])

/-- Walker state: the circular guard (giSt_dev, giSt_ino) and the counter
and throttle globals. -/
structure WSt where
  guard : Nat × Nat
  g : Globals
  deriving DecidableEq, Repr

structure WRes where
  err : Nat
  trace : List Ev
  dst : DNode
  st : WSt

mutual

/-- TimedCopy (lines 778-980) on one source and destination directory
pair.  With distinct paths: the circular check on the source identity runs
first (lines 815-821), then the guard is recorded from the destination
identity when still unset (lines 825-831), then either the single named
file is transferred or the entries are walked and, in mirror mode on a
whole directory, the cleanup pass runs.  With equal paths the copy is
rejected; for a single file with equal directory but distinct names the
file is transferred. -/
def walkNode (mode : Nat) (testRun faster : Bool) (env : FEnv)
    (pathsDiffer : Bool) (srcFile dstFile : String)
    (src : SNode) (dst : DNode) (st : WSt) : WRes :=
  match src with
  | SNode.node sid sentries =>
    if pathsDiffer then
      if sid = st.guard then ⟨ERROR_TCPY_CIRC, [], dst, st⟩
      else
        let st1 : WSt := if st.guard = (0, 0) then ⟨dst.id, st.g⟩ else st
        if srcFile ≠ "" then
          let fr :=
            match lookupS sentries srcFile with
            | some (SEntry.file snap bytes) =>
                timedCopyFile mode testRun faster true snap bytes
                  (getFileD dst.entries dstFile) env st1.g
            | _ =>
                timedCopyFile mode testRun faster false ⟨0, 0, 0⟩ []
                  (getFileD dst.entries dstFile) env st1.g
          ⟨fr.err, fr.trace,
            DNode.node dst.id (setFileD dst.entries dstFile fr.dstAfter),
            ⟨st1.guard, fr.g⟩⟩
        else
          let r := walkEntries mode testRun faster env sentries dst st1
          if r.err = 0 ∧ mode = MODE_MIRROR then
            let (tC, es2) :=
              mirrorCleanup testRun env.mirrorUnlinkOk sentries r.dst.entries
            ⟨0, r.trace ++ tC, DNode.node r.dst.id es2, r.st⟩
          else r
    else
      if srcFile ≠ "" then
        if srcFile ≠ dstFile then
          let fr :=
            match lookupS sentries srcFile with
            | some (SEntry.file snap bytes) =>
                timedCopyFile mode testRun faster true snap bytes
                  (getFileD dst.entries dstFile) env st.g
            | _ =>
                timedCopyFile mode testRun faster false ⟨0, 0, 0⟩ []
                  (getFileD dst.entries dstFile) env st.g
          ⟨fr.err, fr.trace,
            DNode.node dst.id (setFileD dst.entries dstFile fr.dstAfter),
            ⟨st.guard, fr.g⟩⟩
        else ⟨ERROR_TCPY, [], dst, st⟩
      else ⟨ERROR_TCPY, [], dst, st⟩

/-- Directory enumeration loop of TimedCopy (lines 852-905): skip the self
and parent entries, reject over-long names, validate-then-recurse into
subdirectories and hand regular files to TimedCopyFile, stopping at the
first error. -/
def walkEntries (mode : Nat) (testRun faster : Bool) (env : FEnv)
    (entries : List (String × SEntry)) (dst : DNode) (st : WSt) : WRes :=
  match entries with
  | [] => ⟨0, [], dst, st⟩
  | (name, ent) :: rest =>
    if name = "." ∨ name = ".." then
      walkEntries mode testRun faster env rest dst st
    else if LNSZ < name.length then
      ⟨ERROR_TCPY, [Ev.nameTooLongErr], dst, st⟩
    else
      match ent with
      | SEntry.dir sub =>
          let v := validateSubdir env.mkdirOk dst name
          if v.1 ≠ 0 then ⟨v.1, v.2.1, dst, st⟩
          else
            let r := walkNode mode testRun faster env true "" "" sub v.2.2 st
            let dst2 := DNode.node dst.id (setDirD dst.entries name r.dst)
            if r.err ≠ 0 then ⟨r.err, v.2.1 ++ r.trace, dst2, r.st⟩
            else
              let r2 := walkEntries mode testRun faster env rest dst2 r.st
              ⟨r2.err, v.2.1 ++ r.trace ++ r2.trace, r2.dst, r2.st⟩
      | SEntry.file snap bytes =>
          let fr := timedCopyFile mode testRun faster true snap bytes
            (getFileD dst.entries name) env st.g
          let dst2 := DNode.node dst.id (setFileD dst.entries name fr.dstAfter)
          if fr.err ≠ 0 then ⟨fr.err, fr.trace, dst2, ⟨st.guard, fr.g⟩⟩
          else
            let r2 := walkEntries mode testRun faster env rest dst2 ⟨st.guard, fr.g⟩
            ⟨r2.err, fr.trace ++ r2.trace, r2.dst, r2.st⟩

end

/-! ## Event classification and loop lemmas -/

/-- Events that mutate the destination file: the stale delete, the create,
the data writes, the retime and the cleanup delete. -/
def isDestMutEv : Ev → Bool
  | Ev.unlinkDest => true
  | Ev.createDest => true
  | Ev.writeChunk _ => true
  | Ev.retimeDest => true
  | Ev.cleanupUnlink => true
  | _ => false

/-- Events that mutate any file: destination mutations, the source delete
of move mode and the mirror-cleanup delete.  The mkdir call is deliberately
not in this set; see the C3 theorems. -/
def isFileMutEv : Ev → Bool
  | Ev.unlinkDest => true
  | Ev.createDest => true
  | Ev.writeChunk _ => true
  | Ev.retimeDest => true
  | Ev.cleanupUnlink => true
  | Ev.unlinkSrc => true
  | Ev.mirrorUnlink => true
  | _ => false

/-- Every mutating filesystem call, the mkdir of DirectoryValidate
included.  This is the set the C3 claim asserts to be empty in a test
run. -/
def isMutEv (e : Ev) : Bool :=
  isFileMutEv e || e = Ev.mkdirCall

/-- Events the copy loop can emit: throttle sleeps and writes. -/
def isLoopEv : Ev → Bool
  | Ev.throttleSleep _ => true
  | Ev.writeChunk _ => true
  | _ => false

/-- The events of the mirror cleanup pass. -/
def isMirrorEv : Ev → Bool
  | Ev.mirrorDeleteLog => true
  | Ev.mirrorUnlink => true
  | Ev.warnMirrorDelete => true
  | _ => false

/-! ## Lemmas and claim theorems -/

lemma and_top_bit (c : Nat) : c &&& 0x80000000 = (c.testBit 31).toNat * 2 ^ 31 := by
  have h := Nat.and_two_pow c 31
  norm_num at h ⊢
  exact h

lemma xor_mod_two_pow (a b n : Nat) :
    (a ^^^ b) % 2 ^ n = ((a % 2 ^ n) ^^^ (b % 2 ^ n)) % 2 ^ n := by
  apply Nat.eq_of_testBit_eq
  intro i
  simp only [Nat.testBit_mod_two_pow, Nat.testBit_xor]
  cases h : decide (i < n) <;> simp

lemma two_mul_or_one (k : Nat) : (2 * k) ||| 1 = 2 * k + 1 := by
  apply Nat.eq_of_testBit_eq
  intro i
  rw [Nat.testBit_or]
  cases i with
  | zero => simp [Nat.testBit_zero, Nat.mul_add_mod]
  | succ j =>
      have h1 : Nat.testBit 1 (j + 1) = false :=
        Nat.testBit_lt_two_pow (Nat.one_lt_two_pow (by omega))
      rw [h1, Bool.or_false, Nat.testBit_succ, Nat.testBit_succ,
        Nat.mul_div_cancel_left _ (by norm_num : (0:Nat) < 2),
        Nat.mul_add_div (by norm_num : (0:Nat) < 2)]
      simp

lemma shl_w64_mod32 (x : Nat) : (x <<< 1) % W64 % 2 ^ 32 = 2 * (x % 2 ^ 31) := by
  rw [Nat.shiftLeft_eq, pow_one, Nat.mul_comm x 2, W64,
    Nat.mod_mod_of_dvd _ (pow_dvd_pow 2 (by omega : 32 ≤ 64)),
    (show (2:Nat) ^ 32 = 2 * 2 ^ 31 by norm_num), Nat.mul_mod_mul_left]

lemma shl_w64_eq (x : Nat) : (x <<< 1) % W64 = 2 * (x % 2 ^ 63) := by
  rw [Nat.shiftLeft_eq, pow_one, Nat.mul_comm x 2, W64,
    (show (2:Nat) ^ 64 = 2 * 2 ^ 63 by norm_num), Nat.mul_mod_mul_left]

lemma shl_mod32_mod32 (x : Nat) : ((x % 2 ^ 32) <<< 1) % 2 ^ 32 = 2 * (x % 2 ^ 31) := by
  rw [Nat.shiftLeft_eq, pow_one, Nat.mul_comm _ 2]
  have h1 : 2 * (x % 2 ^ 32) % (2 * 2 ^ 31) = 2 * (x % 2 ^ 32 % 2 ^ 31) :=
    Nat.mul_mod_mul_left 2 (x % 2 ^ 32) (2 ^ 31)
  rw [(show (2:Nat) * 2 ^ 31 = 2 ^ 32 by norm_num)] at h1
  rw [h1, Nat.mod_mod_of_dvd _ (pow_dvd_pow 2 (by omega : 31 ≤ 32))]

lemma shr31_mod32 (x : Nat) : (x % 2 ^ 32) >>> 31 = x / 2 ^ 31 % 2 := by
  rw [Nat.shiftRight_eq_div_pow,
    (show (2:Nat) ^ 32 = 2 ^ 31 * 2 by norm_num), Nat.mod_mul_right_div_self]

/-- Low 32 bits of the 64-bit checksum step agree with the 32-bit rotation
step the spec describes. -/
lemma checksumStep_mod32 (c b : Nat) :
    checksumStep c b % 2 ^ 32 = checksumStep32 (c % 2 ^ 32) b := by
  have hm : b &&& 0xFF < 2 ^ 31 := by
    have h := Nat.and_pow_two_sub_one_eq_mod b 8
    norm_num at h
    rw [h]
    have := Nat.mod_lt b (show 0 < 256 by norm_num)
    omega
  simp only [checksumStep, checksumStep32]
  have hx32 : (c % 2 ^ 32 ^^^ (b &&& 0xFF)) % 2 ^ 32 = (c ^^^ (b &&& 0xFF)) % 2 ^ 32 := by
    rw [xor_mod_two_pow c _ 32, Nat.mod_eq_of_lt (lt_trans hm (by norm_num))]
  rw [hx32]
  have hbit : (c ^^^ (b &&& 0xFF)).testBit 31 = c.testBit 31 := by
    rw [Nat.testBit_xor, Nat.testBit_lt_two_pow hm, Bool.xor_false]
  generalize hX : c ^^^ (b &&& 0xFF) = x
  rw [hX] at hbit
  rcases hb : c.testBit 31 with _ | _ <;> rw [hb] at hbit
  · have hc0 : c &&& 0x80000000 = 0 := by rw [and_top_bit, hb]; simp
    have hx31 : x / 2 ^ 31 % 2 = 0 := by
      rw [Nat.testBit_to_div_mod] at hbit
      simp at hbit
      omega
    rw [hc0]
    simp only [ne_eq, not_true_eq_false, ite_false, if_neg (by simp : ¬(0:Nat) ≠ 0)]
    rw [shl_w64_mod32, shl_mod32_mod32, shr31_mod32, hx31, Nat.or_zero]
  · have hc1 : c &&& 0x80000000 = 2 ^ 31 := by rw [and_top_bit, hb]; simp
    have hx31 : x / 2 ^ 31 % 2 = 1 := by
      rw [Nat.testBit_to_div_mod] at hbit
      simpa using hbit
    rw [hc1, if_pos (by positivity : (2:Nat) ^ 31 ≠ 0)]
    rw [shl_w64_eq, two_mul_or_one, shl_mod32_mod32, shr31_mod32, hx31, two_mul_or_one]
    have h1 : 2 * (x % 2 ^ 63) % 2 ^ 32 = 2 * (x % 2 ^ 31) := by
      have h2 : 2 * (x % 2 ^ 63) % (2 * 2 ^ 31) = 2 * (x % 2 ^ 63 % 2 ^ 31) :=
        Nat.mul_mod_mul_left 2 (x % 2 ^ 63) (2 ^ 31)
      rw [(show (2:Nat) * 2 ^ 31 = 2 ^ 32 by norm_num)] at h2
      rw [h2, Nat.mod_mod_of_dvd _ (pow_dvd_pow 2 (by omega : 31 ≤ 63))]
    have hlt : 2 * (x % 2 ^ 31) + 1 < 2 ^ 32 := by
      have := Nat.mod_lt x (show 0 < 2 ^ 31 by positivity)
      omega
    omega

lemma checksumAdd_mod32 (buf : List Nat) (c : Nat) :
    checksumAdd buf c % 2 ^ 32 = checksumAdd32 buf (c % 2 ^ 32) := by
  induction buf generalizing c with
  | nil => simp [checksumAdd, checksumAdd32]
  | cons b rest ih =>
      simp only [checksumAdd, checksumAdd32, List.foldl_cons]
      rw [← checksumAdd, ← checksumAdd32, ih, checksumStep_mod32]

/-- C2, counterexample.  The source checksum state is not a 32-bit word kept
in rotation: feeding 25 bytes of value 128 from seed 0 drives bit 31 high
and the next shift carries it into bit 32 instead of discarding it, so the
final state differs from the claimed 32-bit rotation result and in fact
exceeds 2 ^ 32. -/
theorem c2_checksum_not_32bit_rotation :
    checksum (List.replicate 25 128) ≠ checksum32 (List.replicate 25 128) ∧
    2 ^ 32 ≤ checksum (List.replicate 25 128) := by
  constructor <;> decide

/-- C2, amended.  The state is the 64-bit unsigned long of the source: each
byte XORs its low 8 bits into the state and the word shifts left one bit
modulo 2 ^ 64, bit 0 being set when bit 31 was set, so the bit leaving the
top of the 32-bit window is carried into bit 32 as well as re-entering at
the bottom.  The low 32 bits of the state therefore evolve exactly as the
claimed 32-bit rotation, the final checksum is a function of the byte
sequence alone (the update is a pure fold from seed 0), and reversing the
byte order of a buffer can change the result. -/
theorem c2_checksum_low32_rotation_and_order :
    (∀ buf : List Nat, checksum buf % 2 ^ 32 = checksum32 buf) ∧
    checksum [1, 0] ≠ checksum [0, 1] := by
  refine ⟨fun buf => ?_, by decide⟩
  simpa using checksumAdd_mod32 buf 0

lemma kbLoop_replicate_none (pav : Bool) (k : Nat) :
    kbLoop true pav (List.replicate k none) =
      ⟨List.replicate k KEv.poll, none, pav⟩ := by
  induction k with
  | zero => rfl
  | succ j ih => simp [kbLoop, List.replicate_succ, ih]

lemma kbLoop_replicate_none_append (pav : Bool) (k : Nat) (tl : List (Option Char)) :
    kbLoop true pav (List.replicate k none ++ tl) =
      let r := kbLoop true pav tl
      ⟨List.replicate k KEv.poll ++ r.trace, r.ret, r.pav⟩ := by
  induction k with
  | zero => simp
  | succ j ih => simp [kbLoop, List.replicate_succ, ih]

/-- C9, counterexample.  A poller paused with no pending input re-polls
immediately with no sleep at all: the usleep call of KeyboardCheck sits
inside the input-pending branch, so with two idle polls the loop stays
paused, the trace holds two consecutive polls, and no sleep separates them,
contradicting the claim that every re-poll iteration sleeps first. -/
theorem c9_paused_repoll_without_sleep :
    (keyboardCheck true false [none, none]).ret = none ∧
    (keyboardCheck true false [none, none]).trace =
      [KEv.msgPause, KEv.poll, KEv.poll] ∧
    sleepRePollOk false (keyboardCheck true false [none, none]).trace = false := by
  refine ⟨by decide, by decide, by decide⟩

/-- C9, amended.  When not paused and no input is pending the poller returns
Continue immediately after a single poll.  While paused it re-polls until
unpaused or aborted, but an iteration that finds no pending input performs
no sleep at all (busy wait): a fully idle script leaves a trace of bare
polls with the loop still pausing.  A quit key ends the loop with the stop
error and an unpause key ends it with Continue, after any number of idle
re-polls. -/
theorem c9_poller_amended :
    (∀ (pav : Bool) (rest : List (Option Char)),
      keyboardCheck false pav (none :: rest) = ⟨[KEv.poll], some 0, pav⟩) ∧
    (∀ (pav : Bool) (k : Nat),
      keyboardCheck true pav (List.replicate k none) =
        ⟨KEv.msgPause :: List.replicate k KEv.poll, none, pav⟩) ∧
    (∀ (pav : Bool) (k : Nat),
      (keyboardCheck true pav (List.replicate k none ++ [some 'q'])).ret =
        some ERROR_TCPY_STOP) ∧
    (∀ (pav : Bool) (k : Nat),
      (keyboardCheck true pav (List.replicate k none ++ [some ' '])).ret = some 0) := by
  refine ⟨fun pav rest => by simp [keyboardCheck, kbLoop],
    fun pav k => by simp [keyboardCheck, kbLoop_replicate_none],
    fun pav k => ?_, fun pav k => ?_⟩ <;>
    simp [keyboardCheck, kbLoop_replicate_none_append, kbLoop]

/-- C4.  NanoTime inverts the success test of clock_gettime: a successful
read (return 0) with a nonzero clock value yields 0, and the clock value is
used only when the call fails, so the copy loop never records a real write
duration on a healthy system. -/
theorem c4_nanotime_drops_successful_clock_read :
    nanoTime 0 5 100 = 0 ∧
    nanoTime (-1) 5 100 = 5 * ONESECINNANO + 100 ∧
    nanoTime 0 5 100 ≠ 5 * ONESECINNANO + 100 := by
  refine ⟨by decide, by decide, by decide⟩

lemma throttleStep_prev_lt (s : ThrState) (d r : Nat) :
    (throttleStep s d r).prev < W64 := by
  dsimp only [throttleStep]
  split
  · have h : (d % W64 * LNBIGBUFFER) % W64 < W64 :=
      Nat.mod_lt _ (by simp [W64])
    calc (d % W64 * LNBIGBUFFER) % W64 / r ≤ (d % W64 * LNBIGBUFFER) % W64 :=
          Nat.div_le_self _ _
      _ < W64 := h
  · exact Nat.mod_lt _ (by simp [W64])

lemma throttleStep_fastest_le (s : ThrState) (d r : Nat) :
    (throttleStep s d r).fastest ≤ (throttleStep s d r).prev := by
  dsimp only [throttleStep]
  generalize (if r ≠ LNBIGBUFFER then d % W64 * LNBIGBUFFER % W64 / r else d % W64) = p
  split_ifs with h
  · exact Nat.le_refl p
  · push_neg at h
    exact h.2

lemma throttleStep_fastest_zero (s : ThrState) (d r : Nat) :
    (throttleStep s d r).fastest = 0 → (throttleStep s d r).prev = 0 := by
  dsimp only [throttleStep]
  generalize (if r ≠ LNBIGBUFFER then d % W64 * LNBIGBUFFER % W64 / r else d % W64) = p
  split_ifs with h
  · exact id
  · intro hf
    push_neg at h
    exact absurd hf h.1

lemma thrReach_inv {s : ThrState} (h : ThrReach s) :
    s.fastest ≤ s.prev ∧ (s.fastest = 0 → s.prev = 0) ∧ s.prev < W64 := by
  induction h with
  | start => refine ⟨Nat.le_refl 0, fun _ => rfl, by simp [W64]⟩
  | next s d r h1 h2 hs ih =>
      exact ⟨throttleStep_fastest_le s d r, throttleStep_fastest_zero s d r,
        throttleStep_prev_lt s d r⟩

lemma wrapSub_exact {a b : Nat} (hb : b ≤ a) (ha : a < W64) :
    wrapSub a b = a - b := by
  simp only [wrapSub, W64] at *
  omega

lemma throttleDelay_exact {s : ThrState} (h : ThrReach s) (r : Nat)
    (hr : r ≤ LNBIGBUFFER) (hbnd : (s.prev - s.fastest) * r < W64) :
    throttleDelay s r = (s.prev - s.fastest) * r / LNBIGBUFFER := by
  obtain ⟨hle, _, hlt⟩ := thrReach_inv h
  simp only [throttleDelay, wrapSub_exact hle hlt]
  split
  · rw [Nat.mod_eq_of_lt hbnd]
  · next hrid =>
      push_neg at hrid
      subst hrid
      rw [Nat.mul_div_cancel _ (by norm_num [LNBIGBUFFER])]

lemma throttleDelay_unset {s : ThrState} (h : ThrReach s) (hf : s.fastest = 0) :
    ∀ r, throttleDelay s r = 0 := by
  intro r
  obtain ⟨_, hz, hlt⟩ := thrReach_inv h
  have hp : s.prev = 0 := hz hf
  simp [throttleDelay, wrapSub, hp, hf, W64]

lemma checksumAdd_append (a b : List Nat) (c : Nat) :
    checksumAdd (a ++ b) c = checksumAdd b (checksumAdd a c) := by
  simp [checksumAdd, List.foldl_append]

lemma copyLoopF_ok (faster : Bool) (fuel : Nat) :
    ∀ (durs pending : List Nat) (thr : ThrState) (chk : Nat)
      (written : List Nat) (cb tb : Nat), pending.length < fuel →
      (copyLoopF faster true fuel durs pending thr chk written cb tb).err = 0 ∧
      (copyLoopF faster true fuel durs pending thr chk written cb tb).written =
        written ++ pending ∧
      (copyLoopF faster true fuel durs pending thr chk written cb tb).chk =
        checksumAdd pending chk := by
  induction fuel with
  | zero => intro durs pending thr chk written cb tb h; omega
  | succ f ih =>
      intro durs pending thr chk written cb tb h
      by_cases hp : pending = []
      · simp [copyLoopF, hp, checksumAdd]
      · simp only [copyLoopF, if_neg hp, if_pos rfl]
        by_cases hr : (pending.take LNBIGBUFFER).length = LNBIGBUFFER
        · have hlen : (pending.drop LNBIGBUFFER).length < f := by
            have h1 : 0 < pending.length := List.length_pos.mpr hp
            have h2 := List.length_take LNBIGBUFFER pending
            have h3 : 0 < LNBIGBUFFER := by norm_num [LNBIGBUFFER]
            simp only [List.length_drop]
            omega
          have := ih durs.tail (pending.drop LNBIGBUFFER)
            (throttleStep thr (durs.headD 0) (pending.take LNBIGBUFFER).length)
            (checksumAdd (pending.take LNBIGBUFFER) chk)
            (written ++ pending.take LNBIGBUFFER)
            (cb + (pending.take LNBIGBUFFER).length)
            (tb + (pending.take LNBIGBUFFER).length) hlen
          simp only [if_true, if_pos hr, this.1, this.2.1, this.2.2]
          refine ⟨trivial, ?_, ?_⟩
          · rw [List.append_assoc, List.take_append_drop]
          · rw [← checksumAdd_append, List.take_append_drop]
        · have htake : pending.take LNBIGBUFFER = pending := by
            apply List.take_of_length_le
            have := List.length_take LNBIGBUFFER pending
            omega
          rw [htake] at hr
          simp [if_neg hr, htake]

lemma copyLoop_ok (faster : Bool) (durs pending : List Nat) (thr : ThrState)
    (chk : Nat) (written : List Nat) (cb tb : Nat) :
    (copyLoop faster true durs pending thr chk written cb tb).err = 0 ∧
    (copyLoop faster true durs pending thr chk written cb tb).written =
      written ++ pending ∧
    (copyLoop faster true durs pending thr chk written cb tb).chk =
      checksumAdd pending chk :=
  copyLoopF_ok faster (pending.length + 1) durs pending thr chk written cb tb
    (by omega)

lemma copyLoopF_trace_loopEvs (faster writesOk : Bool) (fuel : Nat) :
    ∀ (durs pending : List Nat) (thr : ThrState) (chk : Nat)
      (written : List Nat) (cb tb : Nat),
      ((copyLoopF faster writesOk fuel durs pending thr chk written cb tb).trace.all
        isLoopEv) = true := by
  induction fuel with
  | zero => intro durs pending thr chk written cb tb; simp [copyLoopF]
  | succ f ih =>
      intro durs pending thr chk written cb tb
      by_cases hp : pending = []
      · simp [copyLoopF, hp]
      · simp only [copyLoopF, if_neg hp]
        split_ifs <;>
          simp [List.all_append, ih, isLoopEv]

lemma copyLoopF_faster_no_sleep (writesOk : Bool) (fuel : Nat) :
    ∀ (durs pending : List Nat) (thr : ThrState) (chk : Nat)
      (written : List Nat) (cb tb : Nat) (n : Nat),
      Ev.throttleSleep n ∉
        (copyLoopF true writesOk fuel durs pending thr chk written cb tb).trace := by
  induction fuel with
  | zero => intro durs pending thr chk written cb tb n; simp [copyLoopF]
  | succ f ih =>
      intro durs pending thr chk written cb tb n
      by_cases hp : pending = []
      · simp [copyLoopF, hp]
      · simp only [copyLoopF, if_neg hp]
        split_ifs <;> simp [ih]

lemma copyLoopF_reach (faster writesOk : Bool) (fuel : Nat) :
    ∀ (durs pending : List Nat) (thr : ThrState) (chk : Nat)
      (written : List Nat) (cb tb : Nat), ThrReach thr →
      ThrReach (copyLoopF faster writesOk fuel durs pending thr chk written cb tb).thr := by
  induction fuel with
  | zero => intro durs pending thr chk written cb tb hthr; simpa [copyLoopF] using hthr
  | succ f ih =>
      intro durs pending thr chk written cb tb hthr
      by_cases hp : pending = []
      · simpa [copyLoopF, hp] using hthr
      · have hr1 : 0 < (pending.take LNBIGBUFFER).length := by
          have := List.length_take LNBIGBUFFER pending
          have h1 : 0 < pending.length := List.length_pos.mpr hp
          have h3 : 0 < LNBIGBUFFER := by norm_num [LNBIGBUFFER]
          omega
        have hr2 : (pending.take LNBIGBUFFER).length ≤ LNBIGBUFFER := by
          have := List.length_take LNBIGBUFFER pending
          omega
        have hstep : ThrReach (throttleStep thr (durs.headD 0)
            (pending.take LNBIGBUFFER).length) :=
          ThrReach.next thr (durs.headD 0) _ hr1 hr2 hthr
        simp only [copyLoopF, if_neg hp]
        split_ifs <;> first
          | exact ih _ _ _ _ _ _ _ hstep
          | exact hstep

/-- C5.  The throttle invariant and delay: for every reachable throttle
state the fastest duration never exceeds the previous one, so the unsigned
subtraction of the delay computation cannot wrap and the delay equals the
true difference scaled by the fraction of the buffer that was read; when no
measurement exists yet (fastest = 0) the previous duration is 0 too and the
delay degrades to zero; the copy loop only ever moves the throttle state
along reachable states; and in faster mode the loop performs no throttle
sleep at all. -/
theorem c5_throttle_delay_invariant :
    (∀ s : ThrState, ThrReach s →
      s.fastest ≤ s.prev ∧ (s.fastest = 0 → s.prev = 0)) ∧
    (∀ (s : ThrState) (r : Nat), ThrReach s → r ≤ LNBIGBUFFER →
      (s.prev - s.fastest) * r < W64 →
      throttleDelay s r = (s.prev - s.fastest) * r / LNBIGBUFFER) ∧
    (∀ (s : ThrState) (r : Nat), ThrReach s → s.fastest = 0 →
      throttleDelay s r = 0) ∧
    (∀ (faster writesOk : Bool) (durs pending : List Nat) (thr : ThrState)
      (chk : Nat) (written : List Nat) (cb tb : Nat), ThrReach thr →
      ThrReach (copyLoop faster writesOk durs pending thr chk written cb tb).thr) ∧
    (∀ (writesOk : Bool) (durs pending : List Nat) (thr : ThrState)
      (chk : Nat) (written : List Nat) (cb tb : Nat) (n : Nat),
      Ev.throttleSleep n ∉
        (copyLoop true writesOk durs pending thr chk written cb tb).trace) := by
  refine ⟨fun s hs => ⟨(thrReach_inv hs).1, (thrReach_inv hs).2.1⟩,
    fun s r hs hr hbnd => throttleDelay_exact hs r hr hbnd,
    fun s r hs hf => throttleDelay_unset hs hf r,
    fun faster writesOk durs pending thr chk written cb tb hthr =>
      copyLoopF_reach faster writesOk _ durs pending thr chk written cb tb hthr,
    fun writesOk durs pending thr chk written cb tb n =>
      copyLoopF_faster_no_sleep writesOk _ durs pending thr chk written cb tb n⟩

/-- C5, witness: a concrete reachable state with distinct previous and
fastest durations, at a full buffer, yields the exact difference. -/
theorem c5_throttle_delay_witness :
    throttleDelay ⟨100, 40⟩ LNBIGBUFFER =
      (100 - 40) * LNBIGBUFFER / LNBIGBUFFER := by
  have h1 : ThrReach (throttleStep ⟨0, 0⟩ 100 LNBIGBUFFER) :=
    ThrReach.next ⟨0, 0⟩ 100 LNBIGBUFFER (by norm_num [LNBIGBUFFER])
      (Nat.le_refl _) ThrReach.start
  have e1 : throttleStep ⟨0, 0⟩ 100 LNBIGBUFFER = ⟨100, 100⟩ := by decide
  rw [e1] at h1
  have h2 : ThrReach (throttleStep ⟨100, 100⟩ 40 LNBIGBUFFER) :=
    ThrReach.next ⟨100, 100⟩ 40 LNBIGBUFFER (by norm_num [LNBIGBUFFER])
      (Nat.le_refl _) h1
  have e2 : throttleStep ⟨100, 100⟩ 40 LNBIGBUFFER = ⟨40, 40⟩ := by decide
  rw [e2] at h2
  have h3 : ThrReach (throttleStep ⟨40, 40⟩ 100 LNBIGBUFFER) :=
    ThrReach.next ⟨40, 40⟩ 100 LNBIGBUFFER (by norm_num [LNBIGBUFFER])
      (Nat.le_refl _) h2
  have e3 : throttleStep ⟨40, 40⟩ 100 LNBIGBUFFER = ⟨100, 40⟩ := by decide
  rw [e3] at h3
  exact c5_throttle_delay_invariant.2.1 ⟨100, 40⟩ LNBIGBUFFER h3 (Nat.le_refl _)
    (by norm_num [W64, LNBIGBUFFER])

lemma moveDelete_err_ok (mode : Nat) (env : FEnv) (h : env.unlinkSrcOk = true) :
    (moveDelete mode false env).1 = 0 := by
  unfold moveDelete
  split_ifs <;> simp_all

lemma moveDelete_no_destMut (mode : Nat) (testRun : Bool) (env : FEnv) :
    (((moveDelete mode testRun env).2.1).all fun e => !isDestMutEv e) = true := by
  unfold moveDelete
  split_ifs <;> simp [isDestMutEv]

lemma bookkeeping_no_destMut (faster : Bool) (g : Globals) :
    (((bookkeeping faster g).1).all fun e => !isDestMutEv e) = true := by
  simp only [bookkeeping]
  split_ifs <;> simp [isDestMutEv]

lemma tcf_allOk_none_diff_eq (mode : Nat) (faster : Bool) (srcSnap : Snap)
    (srcBytes : List Nat) (env : FEnv) (g : Globals)
    (henv : env.allOk)
    (hdiff : ¬(srcSnap.size = 0 ∧ srcSnap.sec = 0 ∧ srcSnap.nsec = 0)) :
    timedCopyFile mode false faster true srcSnap srcBytes none env g =
      ⟨0,
        Ev.copyLog :: Ev.createDest ::
          ((copyLoop faster true env.durs srcBytes g.thr 0 [] g.copyBytes
            g.totalBytes).trace ++ [Ev.retimeDest]) ++
        [Ev.verifyDestLog] ++ (moveDelete mode false env).2.1 ++
        (bookkeeping faster
          ⟨(copyLoop faster true env.durs srcBytes g.thr 0 [] g.copyBytes
              g.totalBytes).thr, g.fileCount,
            (copyLoop faster true env.durs srcBytes g.thr 0 [] g.copyBytes
              g.totalBytes).cb,
            (copyLoop faster true env.durs srcBytes g.thr 0 [] g.copyBytes
              g.totalBytes).tb⟩).1,
        (moveDelete mode false env).2.2,
        some ⟨⟨(srcBytes.length : Int), srcSnap.sec, srcSnap.nsec⟩, srcBytes⟩,
        (bookkeeping faster
          ⟨(copyLoop faster true env.durs srcBytes g.thr 0 [] g.copyBytes
              g.totalBytes).thr, g.fileCount,
            (copyLoop faster true env.durs srcBytes g.thr 0 [] g.copyBytes
              g.totalBytes).cb,
            (copyLoop faster true env.durs srcBytes g.thr 0 [] g.copyBytes
              g.totalBytes).tb⟩).2,
        true⟩ := by
  obtain ⟨h1, h2, h3, h4, h5, h6, h7, h8, h9, h10, h11, h12⟩ := henv
  have hL := copyLoop_ok faster env.durs srcBytes g.thr 0 [] g.copyBytes g.totalBytes
  have hwr : (copyLoop faster true env.durs srcBytes g.thr 0 [] g.copyBytes
      g.totalBytes).written = srcBytes := by simpa using hL.2.1
  rcases hmd : moveDelete mode false env with ⟨e6, t6, srcAf⟩
  have hme : e6 = 0 := by
    have := moveDelete_err_ok mode env h10
    rw [hmd] at this
    exact this
  subst hme
  rcases hbk : bookkeeping faster
      ⟨(copyLoop faster true env.durs srcBytes g.thr 0 [] g.copyBytes
          g.totalBytes).thr, g.fileCount,
        (copyLoop faster true env.durs srcBytes g.thr 0 [] g.copyBytes
          g.totalBytes).cb,
        (copyLoop faster true env.durs srcBytes g.thr 0 [] g.copyBytes
          g.totalBytes).tb⟩ with ⟨t7, g7⟩
  have hcond : srcSnap.size ≠ 0 ∨ srcSnap.sec ≠ 0 ∨ srcSnap.nsec ≠ 0 := by tauto
  rcases hcond with h | h | h <;>
    simp [timedCopyFile, staleDelete, copyBlock, verifyBlock, checksum,
      h1, h2, h3, h4, h5, h6, h7, h8, h9, h10, hL.1, hL.2.2, hwr, hmd, hbk, h]

lemma tcf_allOk_some_diff_eq (mode : Nat) (faster : Bool) (srcSnap : Snap)
    (srcBytes : List Nat) (f : DFile) (env : FEnv) (g : Globals)
    (henv : env.allOk)
    (sChk dChk : Nat)
    (hs : sChk = if srcSnap.size ≠ 0 ∧ f.snap.size ≠ 0 ∧
      srcSnap.size = f.snap.size then checksum srcBytes else 0)
    (hd : dChk = if srcSnap.size ≠ 0 ∧ f.snap.size ≠ 0 ∧
      srcSnap.size = f.snap.size then checksum f.bytes else 0)
    (hdiff : ¬(srcSnap.size = f.snap.size ∧ srcSnap.sec = f.snap.sec ∧
      srcSnap.nsec = f.snap.nsec ∧ sChk = dChk)) :
    timedCopyFile mode false faster true srcSnap srcBytes (some f) env g =
      ⟨0,
        (if srcSnap.size ≠ 0 ∧ f.snap.size ≠ 0 ∧ srcSnap.size = f.snap.size
          then [Ev.verifyBothLog] else []) ++
        Ev.deleteDiffLog
          (if srcSnap.size ≠ f.snap.size then some (f.snap.size - srcSnap.size)
            else none)
          (decide (srcSnap.sec ≠ f.snap.sec)) (decide (srcSnap.nsec ≠ f.snap.nsec))
          (decide (sChk ≠ dChk)) ::
        Ev.unlinkDest ::
        (Ev.copyLog :: Ev.createDest ::
          ((copyLoop faster true env.durs srcBytes g.thr 0 [] g.copyBytes
            g.totalBytes).trace ++ [Ev.retimeDest]) ++
        [Ev.verifyDestLog] ++ (moveDelete mode false env).2.1 ++
        (bookkeeping faster
          ⟨(copyLoop faster true env.durs srcBytes g.thr 0 [] g.copyBytes
              g.totalBytes).thr, g.fileCount,
            (copyLoop faster true env.durs srcBytes g.thr 0 [] g.copyBytes
              g.totalBytes).cb,
            (copyLoop faster true env.durs srcBytes g.thr 0 [] g.copyBytes
              g.totalBytes).tb⟩).1),
        (moveDelete mode false env).2.2,
        some ⟨⟨(srcBytes.length : Int), srcSnap.sec, srcSnap.nsec⟩, srcBytes⟩,
        (bookkeeping faster
          ⟨(copyLoop faster true env.durs srcBytes g.thr 0 [] g.copyBytes
              g.totalBytes).thr, g.fileCount,
            (copyLoop faster true env.durs srcBytes g.thr 0 [] g.copyBytes
              g.totalBytes).cb,
            (copyLoop faster true env.durs srcBytes g.thr 0 [] g.copyBytes
              g.totalBytes).tb⟩).2,
        true⟩ := by
  obtain ⟨h1, h2, h3, h4, h5, h6, h7, h8, h9, h10, h11, h12⟩ := henv
  have hL := copyLoop_ok faster env.durs srcBytes g.thr 0 [] g.copyBytes g.totalBytes
  have hwr : (copyLoop faster true env.durs srcBytes g.thr 0 [] g.copyBytes
      g.totalBytes).written = srcBytes := by simpa using hL.2.1
  rcases hmd : moveDelete mode false env with ⟨e6, t6, srcAf⟩
  have hme : e6 = 0 := by
    have := moveDelete_err_ok mode env h10
    rw [hmd] at this
    exact this
  subst hme
  rcases hbk : bookkeeping faster
      ⟨(copyLoop faster true env.durs srcBytes g.thr 0 [] g.copyBytes
          g.totalBytes).thr, g.fileCount,
        (copyLoop faster true env.durs srcBytes g.thr 0 [] g.copyBytes
          g.totalBytes).cb,
        (copyLoop faster true env.durs srcBytes g.thr 0 [] g.copyBytes
          g.totalBytes).tb⟩ with ⟨t7, g7⟩
  subst hs hd
  by_cases hg : (srcSnap.size ≠ 0 ∧ f.snap.size ≠ 0 ∧ srcSnap.size = f.snap.size)
  · simp only [if_pos hg] at hdiff ⊢
    simp only [checksum] at hdiff ⊢
    have hcond : srcSnap.sec ≠ f.snap.sec ∨ srcSnap.nsec ≠ f.snap.nsec ∨
        checksumAdd srcBytes 0 ≠ checksumAdd f.bytes 0 := by tauto
    rcases hcond with h | h | h <;> by_cases hz : checksumAdd srcBytes 0 = 0 <;>
      first
        | (have hzz : (0 : Nat) ≠ checksumAdd f.bytes 0 := fun he => h (hz.trans he)
           simp [timedCopyFile, staleDelete, copyBlock, verifyBlock, checksum,
             h1, h2, h3, h4, h5, h6, h7, h8, h9, h10, hL.1, hL.2.2, hwr, hmd, hbk,
             if_pos hg, hg.1, hg.2.1, hg.2.2, h, hz, hzz])
        | simp [timedCopyFile, staleDelete, copyBlock, verifyBlock, checksum,
            h1, h2, h3, h4, h5, h6, h7, h8, h9, h10, hL.1, hL.2.2, hwr, hmd, hbk,
            if_pos hg, hg.1, hg.2.1, hg.2.2, h, hz]
  · simp only [if_neg hg] at hdiff ⊢
    have hcond : srcSnap.size ≠ f.snap.size ∨ srcSnap.sec ≠ f.snap.sec ∨
        srcSnap.nsec ≠ f.snap.nsec := by tauto
    rcases hcond with h | h | h <;>
      simp [timedCopyFile, staleDelete, copyBlock, verifyBlock, checksum,
        h1, h2, h3, h4, h5, h6, h7, h8, h9, h10, hL.1, hL.2.2, hwr, hmd, hbk,
        if_neg hg, h]

lemma tcf_allOk_skip_eq (mode : Nat) (faster : Bool) (srcSnap : Snap)
    (srcBytes : List Nat) (dst : Option DFile) (env : FEnv) (g : Globals)
    (henv : env.allOk)
    (sChk dChk : Nat)
    (hs : sChk = if srcSnap.size ≠ 0 ∧
      ((dst.map DFile.snap).getD ⟨0, 0, 0⟩).size ≠ 0 ∧
      srcSnap.size = ((dst.map DFile.snap).getD ⟨0, 0, 0⟩).size
      then checksum srcBytes else 0)
    (hd : dChk = if srcSnap.size ≠ 0 ∧
      ((dst.map DFile.snap).getD ⟨0, 0, 0⟩).size ≠ 0 ∧
      srcSnap.size = ((dst.map DFile.snap).getD ⟨0, 0, 0⟩).size
      then checksum ((dst.map DFile.bytes).getD []) else 0)
    (heq : srcSnap.size = ((dst.map DFile.snap).getD ⟨0, 0, 0⟩).size ∧
      srcSnap.sec = ((dst.map DFile.snap).getD ⟨0, 0, 0⟩).sec ∧
      srcSnap.nsec = ((dst.map DFile.snap).getD ⟨0, 0, 0⟩).nsec ∧ sChk = dChk) :
    timedCopyFile mode false faster true srcSnap srcBytes dst env g =
      ⟨0,
        (if srcSnap.size ≠ 0 ∧ ((dst.map DFile.snap).getD ⟨0, 0, 0⟩).size ≠ 0 ∧
            srcSnap.size = ((dst.map DFile.snap).getD ⟨0, 0, 0⟩).size
          then [Ev.verifyBothLog] else []) ++
        (moveDelete mode false env).2.1 ++ (bookkeeping faster g).1,
        (moveDelete mode false env).2.2, dst, (bookkeeping faster g).2, false⟩ := by
  obtain ⟨h1, h2, h3, h4, h5, h6, h7, h8, h9, h10, h11, h12⟩ := henv
  rcases hmd : moveDelete mode false env with ⟨e6, t6, srcAf⟩
  have hme : e6 = 0 := by
    have := moveDelete_err_ok mode env h10
    rw [hmd] at this
    exact this
  subst hme
  rcases hbk : bookkeeping faster g with ⟨t7, g7⟩
  subst hs hd
  by_cases hg : (srcSnap.size ≠ 0 ∧ ((dst.map DFile.snap).getD ⟨0, 0, 0⟩).size ≠ 0 ∧
      srcSnap.size = ((dst.map DFile.snap).getD ⟨0, 0, 0⟩).size)
  · simp only [if_pos hg] at heq
    simp only [checksum] at heq
    simp [timedCopyFile, checksum, h1, h2, h3, h4, h5, h6, h7, h8, h9, h10,
      hmd, hbk, if_pos hg, hg.1, hg.2.1, hg.2.2, heq.1, heq.2.1, heq.2.2.1,
      heq.2.2.2]
  · have hz0 : ((dst.map DFile.snap).getD ⟨0, 0, 0⟩).size = 0 := by
      by_contra hne
      exact hg ⟨by rw [heq.1]; exact hne, hne, heq.1⟩
    simp [timedCopyFile, h1, h2, h3, h4, h5, h6, h7, h8, h9, h10,
      hmd, hbk, if_neg hg, hz0, heq.1, heq.2.1, heq.2.2.1, heq.2.2.2]

/-- C1: with every system call succeeding, the transfer is skipped — no
destination-mutating event at all — exactly when source and destination
agree on all four of size, mtime seconds, mtime nanoseconds and checksum;
and when they differ with an existing destination, the trace deletes that
destination first, right after a log line carrying the size delta and the
seconds, nanoseconds and checksum mismatch flags, before any copy event. -/
theorem c1_skip_iff_equal_and_stale_delete_logged
    (mode : Nat) (faster : Bool) (srcSnap : Snap) (srcBytes : List Nat)
    (dst : Option DFile) (env : FEnv) (g : Globals) (henv : env.allOk)
    (sChk dChk : Nat)
    (hs : sChk = if srcSnap.size ≠ 0 ∧
      ((dst.map DFile.snap).getD ⟨0, 0, 0⟩).size ≠ 0 ∧
      srcSnap.size = ((dst.map DFile.snap).getD ⟨0, 0, 0⟩).size
      then checksum srcBytes else 0)
    (hd : dChk = if srcSnap.size ≠ 0 ∧
      ((dst.map DFile.snap).getD ⟨0, 0, 0⟩).size ≠ 0 ∧
      srcSnap.size = ((dst.map DFile.snap).getD ⟨0, 0, 0⟩).size
      then checksum ((dst.map DFile.bytes).getD []) else 0) :
    (((timedCopyFile mode false faster true srcSnap srcBytes dst env g).trace.all
        fun e => !isDestMutEv e) = true ↔
      (srcSnap.size = ((dst.map DFile.snap).getD ⟨0, 0, 0⟩).size ∧
       srcSnap.sec = ((dst.map DFile.snap).getD ⟨0, 0, 0⟩).sec ∧
       srcSnap.nsec = ((dst.map DFile.snap).getD ⟨0, 0, 0⟩).nsec ∧ sChk = dChk)) ∧
    (¬(srcSnap.size = ((dst.map DFile.snap).getD ⟨0, 0, 0⟩).size ∧
       srcSnap.sec = ((dst.map DFile.snap).getD ⟨0, 0, 0⟩).sec ∧
       srcSnap.nsec = ((dst.map DFile.snap).getD ⟨0, 0, 0⟩).nsec ∧ sChk = dChk) →
      dst.isSome = true →
      ∃ t1 t2, (timedCopyFile mode false faster true srcSnap srcBytes dst env g).trace =
        t1 ++ Ev.deleteDiffLog
          (if srcSnap.size ≠ ((dst.map DFile.snap).getD ⟨0, 0, 0⟩).size
            then some (((dst.map DFile.snap).getD ⟨0, 0, 0⟩).size - srcSnap.size)
            else none)
          (decide (srcSnap.sec ≠ ((dst.map DFile.snap).getD ⟨0, 0, 0⟩).sec))
          (decide (srcSnap.nsec ≠ ((dst.map DFile.snap).getD ⟨0, 0, 0⟩).nsec))
          (decide (sChk ≠ dChk)) :: Ev.unlinkDest :: t2 ∧
        (t1.all fun e => !isDestMutEv e) = true ∧ Ev.copyLog ∉ t1) := by
  constructor
  · constructor
    · intro hall
      by_contra hne
      rcases dst with _ | f
      · simp only [Option.map_none', Option.getD_none] at hs hd hne
        simp at hs hd
        subst hs hd
        simp at hne
        rw [tcf_allOk_none_diff_eq mode faster srcSnap srcBytes env g henv
          (by tauto)] at hall
        have hc := List.all_eq_true.mp hall Ev.createDest (by simp)
        simp [isDestMutEv] at hc
      · simp only [Option.map_some', Option.getD_some] at hs hd hne
        rw [tcf_allOk_some_diff_eq mode faster srcSnap srcBytes f env g henv
          sChk dChk hs hd hne] at hall
        have hc := List.all_eq_true.mp hall Ev.unlinkDest (by simp)
        simp [isDestMutEv] at hc
    · intro he
      rw [tcf_allOk_skip_eq mode faster srcSnap srcBytes dst env g henv
        sChk dChk hs hd he]
      have hm := moveDelete_no_destMut mode false env
      have hb := bookkeeping_no_destMut faster g
      split_ifs <;>
        (simp only [List.all_append, hm, hb, Bool.and_true, List.nil_append]
         try decide)
  · intro hne hsome
    rcases dst with _ | f
    · simp at hsome
    · simp only [Option.map_some', Option.getD_some] at hs hd hne ⊢
      rw [tcf_allOk_some_diff_eq mode faster srcSnap srcBytes f env g henv
        sChk dChk hs hd hne]
      refine ⟨_, _, rfl, ?_, ?_⟩ <;> split_ifs <;> decide

theorem c1_stale_delete_witness :
    (((timedCopyFile MODE_COPY false false true ⟨1, 5, 6⟩ [7]
        (some ⟨⟨1, 5, 9⟩, [8]⟩)
        ⟨true, true, true, true, true, true, true, none, true, true, true, true, []⟩
        ⟨⟨0, 0⟩, 0, 0, 0⟩).trace.all fun e => !isDestMutEv e) = false) ∧
    (∃ t1 t2, (timedCopyFile MODE_COPY false false true ⟨1, 5, 6⟩ [7]
        (some ⟨⟨1, 5, 9⟩, [8]⟩)
        ⟨true, true, true, true, true, true, true, none, true, true, true, true, []⟩
        ⟨⟨0, 0⟩, 0, 0, 0⟩).trace =
      t1 ++ Ev.deleteDiffLog
        (if (⟨1, 5, 6⟩ : Snap).size ≠
            (((some (⟨⟨1, 5, 9⟩, [8]⟩ : DFile)).map DFile.snap).getD ⟨0, 0, 0⟩).size
          then some ((((some (⟨⟨1, 5, 9⟩, [8]⟩ : DFile)).map DFile.snap).getD
            ⟨0, 0, 0⟩).size - (⟨1, 5, 6⟩ : Snap).size) else none)
        (decide ((⟨1, 5, 6⟩ : Snap).sec ≠
          (((some (⟨⟨1, 5, 9⟩, [8]⟩ : DFile)).map DFile.snap).getD ⟨0, 0, 0⟩).sec))
        (decide ((⟨1, 5, 6⟩ : Snap).nsec ≠
          (((some (⟨⟨1, 5, 9⟩, [8]⟩ : DFile)).map DFile.snap).getD ⟨0, 0, 0⟩).nsec))
        (decide (checksum [7] ≠ checksum [8])) :: Ev.unlinkDest :: t2 ∧
      (t1.all fun e => !isDestMutEv e) = true ∧ Ev.copyLog ∉ t1) := by
  have h := c1_skip_iff_equal_and_stale_delete_logged MODE_COPY false ⟨1, 5, 6⟩ [7]
    (some ⟨⟨1, 5, 9⟩, [8]⟩)
    ⟨true, true, true, true, true, true, true, none, true, true, true, true, []⟩
    ⟨⟨0, 0⟩, 0, 0, 0⟩
    ⟨rfl, rfl, rfl, rfl, rfl, rfl, rfl, rfl, rfl, rfl, rfl, rfl⟩
    (checksum [7]) (checksum [8]) (by decide) (by decide)
  refine ⟨?_, h.2 (by decide) rfl⟩
  cases hB : ((timedCopyFile MODE_COPY false false true ⟨1, 5, 6⟩ [7]
      (some ⟨⟨1, 5, 9⟩, [8]⟩)
      ⟨true, true, true, true, true, true, true, none, true, true, true, true, []⟩
      ⟨⟨0, 0⟩, 0, 0, 0⟩).trace.all fun e => !isDestMutEv e) with
  | false => rfl
  | true => exact absurd (h.1.mp hB) (by decide)

/-- C10: a missing destination is compared through the zeroed snapshot, so
a source of size zero and mtime (0 s, 0 ns) is equal on all four
dimensions: the call succeeds, never creates the destination, mutates no
destination file, and in move mode still deletes the source. -/
theorem c10_zero_snapshot_skip_and_move_delete
    (mode : Nat) (faster : Bool) (srcBytes : List Nat) (env : FEnv) (g : Globals)
    (henv : env.allOk) :
    (timedCopyFile mode false faster true ⟨0, 0, 0⟩ srcBytes none env g).err = 0 ∧
    (timedCopyFile mode false faster true ⟨0, 0, 0⟩ srcBytes none env g).dstAfter
      = none ∧
    (((timedCopyFile mode false faster true ⟨0, 0, 0⟩ srcBytes none env
      g).trace.all fun e => !isDestMutEv e) = true) ∧
    (mode = MODE_DEL →
      (timedCopyFile mode false faster true ⟨0, 0, 0⟩ srcBytes none env
        g).srcLives = false) ∧
    (mode ≠ MODE_DEL →
      (timedCopyFile mode false faster true ⟨0, 0, 0⟩ srcBytes none env
        g).srcLives = true) := by
  have h10 : env.unlinkSrcOk = true := henv.2.2.2.2.2.2.2.2.2.1
  have heq := tcf_allOk_skip_eq mode faster ⟨0, 0, 0⟩ srcBytes none env g henv 0 0
    (by simp) (by simp) (by simp)
  rw [heq]
  have hm := moveDelete_no_destMut mode false env
  have hb := bookkeeping_no_destMut faster g
  refine ⟨rfl, rfl, by simp [List.all_append, hm, hb], ?_, ?_⟩
  · intro hmode
    simp [moveDelete, hmode, h10]
  · intro hmode
    simp [moveDelete, hmode]

theorem c10_zero_snapshot_witness :
    (timedCopyFile MODE_DEL false false true ⟨0, 0, 0⟩ [] none
      ⟨true, true, true, true, true, true, true, none, true, true, true, true, []⟩
      ⟨⟨0, 0⟩, 0, 0, 0⟩).err = 0 ∧
    (timedCopyFile MODE_DEL false false true ⟨0, 0, 0⟩ [] none
      ⟨true, true, true, true, true, true, true, none, true, true, true, true, []⟩
      ⟨⟨0, 0⟩, 0, 0, 0⟩).dstAfter = none ∧
    (((timedCopyFile MODE_DEL false false true ⟨0, 0, 0⟩ [] none
      ⟨true, true, true, true, true, true, true, none, true, true, true, true, []⟩
      ⟨⟨0, 0⟩, 0, 0, 0⟩).trace.all fun e => !isDestMutEv e) = true) ∧
    (MODE_DEL = MODE_DEL →
      (timedCopyFile MODE_DEL false false true ⟨0, 0, 0⟩ [] none
        ⟨true, true, true, true, true, true, true, none, true, true, true, true, []⟩
        ⟨⟨0, 0⟩, 0, 0, 0⟩).srcLives = false) ∧
    (MODE_DEL ≠ MODE_DEL →
      (timedCopyFile MODE_DEL false false true ⟨0, 0, 0⟩ [] none
        ⟨true, true, true, true, true, true, true, none, true, true, true, true, []⟩
        ⟨⟨0, 0⟩, 0, 0, 0⟩).srcLives = true) :=
  c10_zero_snapshot_skip_and_move_delete MODE_DEL false [] _ _
    ⟨rfl, rfl, rfl, rfl, rfl, rfl, rfl, rfl, rfl, rfl, rfl, rfl⟩

/-- A passing verify block is exactly an error-free one. -/
lemma verifyBlock_err_vOk (env : FEnv) (sc : Nat) (d : Option DFile) :
    (verifyBlock false env sc d).1 = 0 → (verifyBlock false env sc d).2.2.2 = true := by
  unfold verifyBlock
  split_ifs <;> simp_all [ERROR_TCPY]
  split_ifs <;> simp_all [ERROR_TCPY]

/-- In move mode the source survives exactly when the unlink failed. -/
lemma moveDelete_del_srcAf (env : FEnv) :
    ((moveDelete MODE_DEL false env).1 = 0 → (moveDelete MODE_DEL false env).2.2 = false) ∧
    ((moveDelete MODE_DEL false env).1 ≠ 0 → (moveDelete MODE_DEL false env).2.2 = true) := by
  unfold moveDelete
  split_ifs <;> simp_all [ERROR_TCPY]

/-- TimedCopyFile on an existing source is the comparison step followed by
tcfStep5 and tcfTail. -/
lemma tcf_decompose (mode : Nat) (testRun faster : Bool) (srcSnap : Snap)
    (srcBytes : List Nat) (dst : Option DFile) (env : FEnv) (g : Globals) :
    timedCopyFile mode testRun faster true srcSnap srcBytes dst env g =
      (let dstSnap := (dst.map DFile.snap).getD ⟨0, 0, 0⟩
       let cmp : Nat × List Ev × Nat × Nat :=
         if srcSnap.size ≠ 0 ∧ dstSnap.size ≠ 0 ∧ srcSnap.size = dstSnap.size then
           if testRun then (0, [Ev.verifyBothLog], 0, 0)
           else if env.chkOpensOk then
             (0, [Ev.verifyBothLog], checksum srcBytes,
               checksum ((dst.map DFile.bytes).getD []))
           else (ERROR_TCPY, [Ev.verifyBothLog], 0, 0)
         else (0, [], 0, 0)
       let (e1, t1, sChk, dChk) := cmp
       if e1 ≠ 0 then ⟨e1, t1, true, dst, g, false⟩
       else tcfTail mode testRun faster env
         (tcfStep5 testRun faster srcSnap srcBytes dst env g t1 sChk dChk)) := rfl

/-- When some compared dimension differs, an error-free tcfStep5 result
carries a passed verification. -/
lemma tcfStep5_key (faster : Bool) (srcSnap : Snap) (srcBytes : List Nat)
    (dst : Option DFile) (env : FEnv) (g : Globals) (t1 : List Ev) (cs cd : Nat)
    (hdf : srcSnap.size ≠ ((dst.map DFile.snap).getD ⟨0, 0, 0⟩).size ∨
      srcSnap.sec ≠ ((dst.map DFile.snap).getD ⟨0, 0, 0⟩).sec ∨
      srcSnap.nsec ≠ ((dst.map DFile.snap).getD ⟨0, 0, 0⟩).nsec ∨ cs ≠ cd) :
    (tcfStep5 false faster srcSnap srcBytes dst env g t1 cs cd).1 = 0 →
      (tcfStep5 false faster srcSnap srcBytes dst env g t1 cs cd).2.2.2.2 = true := by
  unfold tcfStep5
  dsimp only
  rw [if_pos hdf]
  rcases hsd : staleDelete false env srcSnap ((dst.map DFile.snap).getD ⟨0, 0, 0⟩)
      dst.isSome cs cd dst with ⟨e2, t2, dst2⟩
  dsimp only
  by_cases he2 : e2 = 0
  · rw [if_neg (by simp [he2])]
    rcases hcb : copyBlock false faster env srcSnap srcBytes cs dst2
        g.thr g.copyBytes g.totalBytes with ⟨e3, t3, dst3, thr3, cb3, tb3, sChk3⟩
    dsimp only
    by_cases he3 : e3 = 0
    · rw [if_neg (by simp [he3])]
      rcases hvb : verifyBlock false env sChk3 dst3 with ⟨e4, t4, dst4, v4⟩
      dsimp only
      intro he4
      have h0 := verifyBlock_err_vOk env sChk3 dst3
      rw [hvb] at h0
      exact h0 he4
    · rw [if_pos he3]
      dsimp only
      intro h
      exact absurd h he3
  · rw [if_pos he2]
    dsimp only
    intro h
    exact absurd h he2

/-- The move-mode tail never deletes the source before a passed
verification: given that an error-free step implies a passed verify, a dead
source means verify passed, a failed verify means the source lives, and a
fully successful call has deleted the source. -/
lemma tcfTail_abc (faster : Bool) (env : FEnv)
    (s5 : Nat × List Ev × Option DFile × Globals × Bool)
    (hkey : s5.1 = 0 → s5.2.2.2.2 = true) :
    ((tcfTail MODE_DEL false faster env s5).srcLives = false →
      (tcfTail MODE_DEL false faster env s5).verifiedOk = true) ∧
    ((tcfTail MODE_DEL false faster env s5).verifiedOk = false →
      (tcfTail MODE_DEL false faster env s5).srcLives = true) ∧
    ((tcfTail MODE_DEL false faster env s5).err = 0 →
      (tcfTail MODE_DEL false faster env s5).srcLives = false) := by
  obtain ⟨e5, t5, dst5, g5, vOk⟩ := s5
  simp only at hkey
  unfold tcfTail
  dsimp only
  by_cases he5 : e5 = 0
  · rw [if_neg (by simp [he5])]
    have hv : vOk = true := hkey he5
    rcases hmv : moveDelete MODE_DEL false env with ⟨e6, t6, sAf⟩
    dsimp only
    obtain ⟨h60, h6n⟩ := moveDelete_del_srcAf env
    rw [hmv] at h60 h6n
    by_cases he6 : e6 = 0
    · rw [if_neg (by simp [he6])]
      rcases hbk : bookkeeping faster g5 with ⟨t7, g7⟩
      dsimp only
      have hsf : sAf = false := h60 he6
      simp [hv, hsf]
    · rw [if_pos he6]
      dsimp only
      have hsf : sAf = true := h6n he6
      simp [hv, hsf, he6]
  · rw [if_pos he5]
    dsimp only
    simp [he5]

/-- C6: in move mode the source is deleted only after copy and
verification succeed: a deleted source implies the verification passed, a
failed verification leaves the source in place, an error-free call has
deleted it, and with all system calls succeeding the source unlink appears
in the trace only after the verification log. -/
theorem c6_move_source_survives_failed_verification
    (faster : Bool) (srcSnap : Snap) (srcBytes : List Nat) (dst : Option DFile)
    (env : FEnv) (g : Globals) (sChk dChk : Nat)
    (hs : sChk = if srcSnap.size ≠ 0 ∧
      ((dst.map DFile.snap).getD ⟨0, 0, 0⟩).size ≠ 0 ∧
      srcSnap.size = ((dst.map DFile.snap).getD ⟨0, 0, 0⟩).size
      then checksum srcBytes else 0)
    (hd : dChk = if srcSnap.size ≠ 0 ∧
      ((dst.map DFile.snap).getD ⟨0, 0, 0⟩).size ≠ 0 ∧
      srcSnap.size = ((dst.map DFile.snap).getD ⟨0, 0, 0⟩).size
      then checksum ((dst.map DFile.bytes).getD []) else 0)
    (hdiff : ¬(srcSnap.size = ((dst.map DFile.snap).getD ⟨0, 0, 0⟩).size ∧
      srcSnap.sec = ((dst.map DFile.snap).getD ⟨0, 0, 0⟩).sec ∧
      srcSnap.nsec = ((dst.map DFile.snap).getD ⟨0, 0, 0⟩).nsec ∧ sChk = dChk)) :
    ((timedCopyFile MODE_DEL false faster true srcSnap srcBytes dst env
        g).srcLives = false →
      (timedCopyFile MODE_DEL false faster true srcSnap srcBytes dst env
        g).verifiedOk = true) ∧
    ((timedCopyFile MODE_DEL false faster true srcSnap srcBytes dst env
        g).verifiedOk = false →
      (timedCopyFile MODE_DEL false faster true srcSnap srcBytes dst env
        g).srcLives = true) ∧
    ((timedCopyFile MODE_DEL false faster true srcSnap srcBytes dst env
        g).err = 0 →
      (timedCopyFile MODE_DEL false faster true srcSnap srcBytes dst env
        g).srcLives = false) ∧
    (env.allOk →
      (timedCopyFile MODE_DEL false faster true srcSnap srcBytes dst env
        g).srcLives = false →
      ∃ t1 t2, (timedCopyFile MODE_DEL false faster true srcSnap srcBytes dst env
        g).trace = t1 ++ Ev.unlinkSrc :: t2 ∧ Ev.verifyDestLog ∈ t1) := by
  subst hs hd
  have habc :
      ((timedCopyFile MODE_DEL false faster true srcSnap srcBytes dst env
          g).srcLives = false →
        (timedCopyFile MODE_DEL false faster true srcSnap srcBytes dst env
          g).verifiedOk = true) ∧
      ((timedCopyFile MODE_DEL false faster true srcSnap srcBytes dst env
          g).verifiedOk = false →
        (timedCopyFile MODE_DEL false faster true srcSnap srcBytes dst env
          g).srcLives = true) ∧
      ((timedCopyFile MODE_DEL false faster true srcSnap srcBytes dst env
          g).err = 0 →
        (timedCopyFile MODE_DEL false faster true srcSnap srcBytes dst env
          g).srcLives = false) := by
    rw [tcf_decompose]
    by_cases hg : (srcSnap.size ≠ 0 ∧
        ((dst.map DFile.snap).getD ⟨0, 0, 0⟩).size ≠ 0 ∧
        srcSnap.size = ((dst.map DFile.snap).getD ⟨0, 0, 0⟩).size)
    · by_cases hco : env.chkOpensOk = true
      · simp only [if_pos hg] at hdiff
        dsimp only
        rw [if_pos hg, if_neg (show ¬(false = true) from by simp), if_pos hco]
        dsimp only
        rw [if_neg (show ¬((0:Nat) ≠ 0) from by simp)]
        exact tcfTail_abc faster env _
          (tcfStep5_key faster srcSnap srcBytes dst env g _ _ _ (by tauto))
      · dsimp only
        rw [if_pos hg, if_neg (show ¬(false = true) from by simp), if_neg hco]
        dsimp only
        rw [if_pos (show ERROR_TCPY ≠ 0 from by decide)]
        refine ⟨by simp, by simp, ?_⟩
        intro h
        exact absurd h (by simp [ERROR_TCPY])
    · simp only [if_neg hg] at hdiff
      dsimp only
      rw [if_neg hg]
      dsimp only
      rw [if_neg (show ¬((0:Nat) ≠ 0) from by simp)]
      exact tcfTail_abc faster env _
        (tcfStep5_key faster srcSnap srcBytes dst env g _ _ _ (by tauto))
  obtain ⟨ha, hb, hc⟩ := habc
  refine ⟨ha, hb, hc, ?_⟩
  intro henv hsrc
  have h10 : env.unlinkSrcOk = true := henv.2.2.2.2.2.2.2.2.2.1
  have hmdel : moveDelete MODE_DEL false env = (0, [Ev.deleteSrcLog, Ev.unlinkSrc],
      false) := by
    simp [moveDelete, h10]
  rcases dst with _ | f
  · simp only [Option.map_none', Option.getD_none] at hdiff
    simp at hdiff
    rw [tcf_allOk_none_diff_eq MODE_DEL faster srcSnap srcBytes env g henv
      (by tauto)]
    rw [hmdel]
    refine ⟨(Ev.copyLog :: Ev.createDest ::
      ((copyLoop faster true env.durs srcBytes g.thr 0 [] g.copyBytes
        g.totalBytes).trace ++ [Ev.retimeDest])) ++
      [Ev.verifyDestLog, Ev.deleteSrcLog], (bookkeeping faster
        ⟨(copyLoop faster true env.durs srcBytes g.thr 0 [] g.copyBytes
            g.totalBytes).thr, g.fileCount,
          (copyLoop faster true env.durs srcBytes g.thr 0 [] g.copyBytes
            g.totalBytes).cb,
          (copyLoop faster true env.durs srcBytes g.thr 0 [] g.copyBytes
            g.totalBytes).tb⟩).1, ?_, ?_⟩
    · simp
    · simp
  · simp only [Option.map_some', Option.getD_some] at hdiff
    rw [tcf_allOk_some_diff_eq MODE_DEL faster srcSnap srcBytes f env g henv
      _ _ rfl rfl hdiff]
    rw [hmdel]
    refine ⟨(if srcSnap.size ≠ 0 ∧ f.snap.size ≠ 0 ∧ srcSnap.size = f.snap.size
        then [Ev.verifyBothLog] else []) ++
      Ev.deleteDiffLog
        (if srcSnap.size ≠ f.snap.size then some (f.snap.size - srcSnap.size)
          else none)
        (decide (srcSnap.sec ≠ f.snap.sec)) (decide (srcSnap.nsec ≠ f.snap.nsec))
        (decide ((if srcSnap.size ≠ 0 ∧ f.snap.size ≠ 0 ∧
            srcSnap.size = f.snap.size then checksum srcBytes else 0) ≠
          (if srcSnap.size ≠ 0 ∧ f.snap.size ≠ 0 ∧ srcSnap.size = f.snap.size
            then checksum f.bytes else 0))) ::
      Ev.unlinkDest ::
      (Ev.copyLog :: Ev.createDest ::
        ((copyLoop faster true env.durs srcBytes g.thr 0 [] g.copyBytes
          g.totalBytes).trace ++ [Ev.retimeDest])) ++
      [Ev.verifyDestLog, Ev.deleteSrcLog], (bookkeeping faster
        ⟨(copyLoop faster true env.durs srcBytes g.thr 0 [] g.copyBytes
            g.totalBytes).thr, g.fileCount,
          (copyLoop faster true env.durs srcBytes g.thr 0 [] g.copyBytes
            g.totalBytes).cb,
          (copyLoop faster true env.durs srcBytes g.thr 0 [] g.copyBytes
            g.totalBytes).tb⟩).1, ?_, ?_⟩
    · simp
    · simp

theorem c6_move_source_witness :
    ((timedCopyFile MODE_DEL false false true ⟨1, 2, 3⟩ [7] none
        ⟨true, true, true, true, true, true, true, none, true, true, true, true, []⟩
        ⟨⟨0, 0⟩, 0, 0, 0⟩).srcLives = false →
      (timedCopyFile MODE_DEL false false true ⟨1, 2, 3⟩ [7] none
        ⟨true, true, true, true, true, true, true, none, true, true, true, true, []⟩
        ⟨⟨0, 0⟩, 0, 0, 0⟩).verifiedOk = true) ∧
    ((timedCopyFile MODE_DEL false false true ⟨1, 2, 3⟩ [7] none
        ⟨true, true, true, true, true, true, true, none, true, true, true, true, []⟩
        ⟨⟨0, 0⟩, 0, 0, 0⟩).verifiedOk = false →
      (timedCopyFile MODE_DEL false false true ⟨1, 2, 3⟩ [7] none
        ⟨true, true, true, true, true, true, true, none, true, true, true, true, []⟩
        ⟨⟨0, 0⟩, 0, 0, 0⟩).srcLives = true) ∧
    ((timedCopyFile MODE_DEL false false true ⟨1, 2, 3⟩ [7] none
        ⟨true, true, true, true, true, true, true, none, true, true, true, true, []⟩
        ⟨⟨0, 0⟩, 0, 0, 0⟩).err = 0 →
      (timedCopyFile MODE_DEL false false true ⟨1, 2, 3⟩ [7] none
        ⟨true, true, true, true, true, true, true, none, true, true, true, true, []⟩
        ⟨⟨0, 0⟩, 0, 0, 0⟩).srcLives = false) ∧
    ((⟨true, true, true, true, true, true, true, none, true, true, true, true,
        []⟩ : FEnv).allOk →
      (timedCopyFile MODE_DEL false false true ⟨1, 2, 3⟩ [7] none
        ⟨true, true, true, true, true, true, true, none, true, true, true, true, []⟩
        ⟨⟨0, 0⟩, 0, 0, 0⟩).srcLives = false →
      ∃ t1 t2, (timedCopyFile MODE_DEL false false true ⟨1, 2, 3⟩ [7] none
        ⟨true, true, true, true, true, true, true, none, true, true, true, true, []⟩
        ⟨⟨0, 0⟩, 0, 0, 0⟩).trace = t1 ++ Ev.unlinkSrc :: t2 ∧
        Ev.verifyDestLog ∈ t1) :=
  c6_move_source_survives_failed_verification false ⟨1, 2, 3⟩ [7] none
    ⟨true, true, true, true, true, true, true, none, true, true, true, true, []⟩
    ⟨⟨0, 0⟩, 0, 0, 0⟩ 0 0 (by simp) (by simp) (by simp)

/-- In a test run the stale-destination delete only logs. -/
lemma staleDelete_testRun_no_fileMut (env : FEnv) (s d : Snap) (de : Bool)
    (cs cd : Nat) (dst : Option DFile) :
    ((staleDelete true env s d de cs cd dst).2.1.all
      (fun e => !isFileMutEv e)) = true := by
  unfold staleDelete
  split_ifs <;> simp_all [isFileMutEv]

/-- In a test run the move-mode source delete only logs. -/
lemma moveDelete_testRun_no_fileMut (mode : Nat) (env : FEnv) :
    ((moveDelete mode true env).2.1.all (fun e => !isFileMutEv e)) = true := by
  unfold moveDelete
  split_ifs <;> simp_all [isFileMutEv]

/-- The pacing bookkeeping never mutates a file. -/
lemma bookkeeping_no_fileMut (faster : Bool) (g : Globals) :
    ((bookkeeping faster g).1.all (fun e => !isFileMutEv e)) = true := by
  unfold bookkeeping
  split_ifs <;> simp_all [isFileMutEv]
  all_goals (split_ifs <;> simp_all [isFileMutEv])

/-- The TimedCopyFile tail preserves test-run mutation freedom. -/
lemma tcfTail_testRun_no_fileMut (mode : Nat) (faster : Bool) (env : FEnv)
    (s5 : Nat × List Ev × Option DFile × Globals × Bool)
    (h : (s5.2.1.all (fun e => !isFileMutEv e)) = true) :
    ((tcfTail mode true faster env s5).trace.all
      (fun e => !isFileMutEv e)) = true := by
  obtain ⟨e5, t5, dst5, g5, vOk⟩ := s5
  simp only at h
  unfold tcfTail
  dsimp only
  by_cases he5 : e5 = 0
  · rw [if_neg (by simp [he5])]
    rcases hmv : moveDelete mode true env with ⟨e6, t6, sAf⟩
    have ht6 := moveDelete_testRun_no_fileMut mode env
    rw [hmv] at ht6
    simp only at ht6
    dsimp only
    have hbk := bookkeeping_no_fileMut faster g5
    rcases hbk2 : bookkeeping faster g5 with ⟨t7, g7⟩
    rw [hbk2] at hbk
    simp only at hbk
    by_cases he6 : e6 = 0
    · rw [if_neg (by simp [he6])]
      dsimp only
      simp [List.all_append, h, ht6, hbk]
    · rw [if_pos he6]
      dsimp only
      simp [List.all_append, h, ht6]
  · rw [if_pos he5]
    dsimp only
    simpa using h

/-- In a test run the copy-and-verify step only logs. -/
lemma tcfStep5_testRun_no_fileMut (faster : Bool) (snap : Snap)
    (bytes : List Nat) (dst : Option DFile) (env : FEnv) (g : Globals)
    (t1 : List Ev) (cs cd : Nat)
    (h : (t1.all (fun e => !isFileMutEv e)) = true) :
    ((tcfStep5 true faster snap bytes dst env g t1 cs cd).2.1.all
      (fun e => !isFileMutEv e)) = true := by
  unfold tcfStep5
  dsimp only
  by_cases hdf : (snap.size ≠ ((dst.map DFile.snap).getD ⟨0, 0, 0⟩).size ∨
      snap.sec ≠ ((dst.map DFile.snap).getD ⟨0, 0, 0⟩).sec ∨
      snap.nsec ≠ ((dst.map DFile.snap).getD ⟨0, 0, 0⟩).nsec ∨ cs ≠ cd)
  · rw [if_pos hdf]
    rcases hsd : staleDelete true env snap ((dst.map DFile.snap).getD ⟨0, 0, 0⟩)
        dst.isSome cs cd dst with ⟨e2, t2, dst2⟩
    have ht2 := staleDelete_testRun_no_fileMut env snap
      ((dst.map DFile.snap).getD ⟨0, 0, 0⟩) dst.isSome cs cd dst
    rw [hsd] at ht2
    simp only at ht2
    dsimp only
    by_cases he2 : e2 = 0
    · rw [if_neg (by simp [he2])]
      have hcb : copyBlock true faster env snap bytes cs dst2
          g.thr g.copyBytes g.totalBytes =
          ⟨0, [Ev.copyLog], dst2, g.thr, g.copyBytes, g.totalBytes, cs⟩ := rfl
      rw [hcb]
      dsimp only
      rw [if_neg (show ¬((0:Nat) ≠ 0) from by simp)]
      have hvb : verifyBlock true env cs dst2 = (0, [Ev.verifyDestLog], dst2, true) :=
        rfl
      rw [hvb]
      dsimp only
      simp_all [List.all_append, isFileMutEv]
    · rw [if_pos he2]
      dsimp only
      simp_all [List.all_append]
  · rw [if_neg hdf]
    dsimp only
    simpa using h

/-- In a test run TimedCopyFile emits no file-mutating event. -/
lemma tcf_testRun_no_fileMut (mode : Nat) (faster ex : Bool) (snap : Snap)
    (bytes : List Nat) (dst : Option DFile) (env : FEnv) (g : Globals) :
    ((timedCopyFile mode true faster ex snap bytes dst env g).trace.all
      (fun e => !isFileMutEv e)) = true := by
  rcases ex
  · simp [timedCopyFile]
  · rw [tcf_decompose]
    dsimp only
    by_cases hg : (snap.size ≠ 0 ∧
        ((dst.map DFile.snap).getD ⟨0, 0, 0⟩).size ≠ 0 ∧
        snap.size = ((dst.map DFile.snap).getD ⟨0, 0, 0⟩).size)
    · rw [if_pos hg, if_pos rfl]
      dsimp only
      rw [if_neg (show ¬((0:Nat) ≠ 0) from by simp)]
      exact tcfTail_testRun_no_fileMut mode faster env _
        (tcfStep5_testRun_no_fileMut faster snap bytes dst env g _ _ _
          (by simp [isFileMutEv]))
    · rw [if_neg hg]
      dsimp only
      rw [if_neg (show ¬((0:Nat) ≠ 0) from by simp)]
      exact tcfTail_testRun_no_fileMut mode faster env _
        (tcfStep5_testRun_no_fileMut faster snap bytes dst env g _ _ _
          (by simp))

/-- DirectoryValidate at the walker call site emits at most the mkdir
call, never a file mutation. -/
lemma validateSubdir_no_fileMut (mk : Bool) (dst : DNode) (name : String) :
    ((validateSubdir mk dst name).2.1.all (fun e => !isFileMutEv e)) = true := by
  unfold validateSubdir
  rcases hl : lookupD dst.entries name with _ | e
  · split_ifs <;> simp [isFileMutEv]
  · rcases e with f | sub <;> simp [isFileMutEv]

/-- In a test run the mirror cleanup pass only logs. -/
lemma mirrorCleanup_testRun_no_fileMut (mu : Bool)
    (srcE : List (String × SEntry)) (es : List (String × DEntry)) :
    ((mirrorCleanup true mu srcE es).1.all (fun e => !isFileMutEv e)) = true := by
  induction es with
  | nil => simp [mirrorCleanup]
  | cons p rest ih =>
    obtain ⟨n, e⟩ := p
    rcases e with f | sub <;>
      simp_all [mirrorCleanup, isFileMutEv, List.all_append] <;>
      split_ifs <;> simp_all [isFileMutEv]

mutual

/-- In a test run the walker emits no file-mutating event at any node. -/
lemma walkNode_testRun_no_fileMut (mode : Nat) (faster : Bool) (env : FEnv)
    (pd : Bool) (sf df : String) (src : SNode) (dst : DNode) (st : WSt) :
    ((walkNode mode true faster env pd sf df src dst st).trace.all
      (fun e => !isFileMutEv e)) = true := by
  obtain ⟨sid, sentries⟩ := src
  rw [walkNode.eq_def]
  have htcf : ∀ (ex : Bool) (snap : Snap) (bytes : List Nat) (d : Option DFile)
      (gg : Globals), ((timedCopyFile mode true faster ex snap bytes d env
        gg).trace.all (fun e => !isFileMutEv e)) = true :=
    fun ex snap bytes d gg => tcf_testRun_no_fileMut mode faster ex snap bytes d env gg
  have hwe : ∀ stx : WSt, ((walkEntries mode true faster env sentries dst
      stx).trace.all (fun e => !isFileMutEv e)) = true :=
    fun stx => walkEntries_testRun_no_fileMut mode faster env sentries dst stx
  have hmc : ∀ es, ((mirrorCleanup true env.mirrorUnlinkOk sentries es).1.all
      (fun e => !isFileMutEv e)) = true :=
    fun es => mirrorCleanup_testRun_no_fileMut env.mirrorUnlinkOk sentries es
  rcases hls : lookupS sentries sf with _ | se
  · simp only [hls]
    try dsimp only
    split_ifs
    all_goals
      first
        | rfl
        | exact htcf _ _ _ _ _
        | exact hwe _
        | rw [List.all_append, hwe _, hmc _]
    all_goals decide
  · rcases se with ⟨snap, bytes⟩ | sub
    all_goals simp only [hls]
    all_goals try dsimp only
    all_goals split_ifs
    all_goals
      first
        | rfl
        | exact htcf _ _ _ _ _
        | exact hwe _
        | rw [List.all_append, hwe _, hmc _]
    all_goals decide
termination_by sizeOf src

/-- In a test run the directory enumeration loop emits no file-mutating
event. -/
lemma walkEntries_testRun_no_fileMut (mode : Nat) (faster : Bool) (env : FEnv)
    (entries : List (String × SEntry)) (dst : DNode) (st : WSt) :
    ((walkEntries mode true faster env entries dst st).trace.all
      (fun e => !isFileMutEv e)) = true := by
  match entries with
  | [] => simp [walkEntries]
  | (name, ent) :: rest =>
    rw [walkEntries.eq_def]
    have htcf : ∀ (ex : Bool) (snap : Snap) (bytes : List Nat) (d : Option DFile)
        (gg : Globals), ((timedCopyFile mode true faster ex snap bytes d env
          gg).trace.all (fun e => !isFileMutEv e)) = true :=
      fun ex snap bytes d gg =>
        tcf_testRun_no_fileMut mode faster ex snap bytes d env gg
    have hwe2 : ∀ (d2 : DNode) (st2 : WSt), ((walkEntries mode true faster env
        rest d2 st2).trace.all (fun e => !isFileMutEv e)) = true :=
      fun d2 st2 => walkEntries_testRun_no_fileMut mode faster env rest d2 st2
    rcases ent with ⟨snap, bytes⟩ | sub
    · dsimp only
      split_ifs
      all_goals
        first
          | rfl
          | decide
          | exact hwe2 _ _
          | exact htcf _ _ _ _ _
          | rw [List.all_append, htcf _ _ _ _ _, hwe2 _ _]
      all_goals decide
    · have hv := validateSubdir_no_fileMut env.mkdirOk dst name
      have hrn : ∀ (d2 : DNode) (st2 : WSt), ((walkNode mode true faster env
          true "" "" sub d2 st2).trace.all (fun e => !isFileMutEv e)) = true :=
        fun d2 st2 => walkNode_testRun_no_fileMut mode faster env true "" "" sub d2 st2
      dsimp only
      split_ifs
      all_goals
        first
          | rfl
          | decide
          | exact hwe2 _ _
          | exact hv
          | rw [List.all_append, hv, hrn _ _]
          | rw [List.all_append, List.all_append, hv, hrn _ _, hwe2 _ _]
      all_goals decide
termination_by sizeOf entries

end

/-- C3: counterexample.  In a test run on a source tree with a
subdirectory missing from the destination, the walker still issues the
mkdir call of DirectoryValidate — a mutating filesystem call — because
DirectoryValidate never consults the test-run flag; the run even succeeds.
So a dry run is not free of mutating filesystem calls. -/
theorem c3_dry_run_mkdir_not_suppressed :
    Ev.mkdirCall ∈ (walkNode MODE_COPY true false
      ⟨true, true, true, true, true, true, true, none, true, true, true, true, []⟩
      true "" ""
      (SNode.node (1, 2) [("s", SEntry.dir (SNode.node (5, 6) []))])
      (DNode.node (3, 4) []) ⟨(0, 0), ⟨⟨0, 0⟩, 0, 0, 0⟩⟩).trace ∧
    isMutEv Ev.mkdirCall = true ∧
    (walkNode MODE_COPY true false
      ⟨true, true, true, true, true, true, true, none, true, true, true, true, []⟩
      true "" ""
      (SNode.node (1, 2) [("s", SEntry.dir (SNode.node (5, 6) []))])
      (DNode.node (3, 4) []) ⟨(0, 0), ⟨⟨0, 0⟩, 0, 0, 0⟩⟩).err = 0 := by decide

/-- C3 (amended): in a test run the whole walk performs no file-mutating
call — no file creation, no write, no deletion, no retime — at any
recursion depth, and the only mutating call it can still issue is the
directory-creating mkdir of DirectoryValidate. -/
theorem c3_dry_run_no_file_mutations (mode : Nat) (faster : Bool) (env : FEnv)
    (pd : Bool) (sf df : String) (src : SNode) (dst : DNode) (st : WSt) :
    ((walkNode mode true faster env pd sf df src dst st).trace.all
      (fun e => !isFileMutEv e)) = true ∧
    (∀ e ∈ (walkNode mode true faster env pd sf df src dst st).trace,
      isMutEv e = true → e = Ev.mkdirCall) := by
  refine ⟨walkNode_testRun_no_fileMut mode faster env pd sf df src dst st, ?_⟩
  intro e he hm
  have h1 := List.all_eq_true.mp
    (walkNode_testRun_no_fileMut mode faster env pd sf df src dst st) e he
  simp only [isMutEv, Bool.or_eq_true] at hm
  rcases hm with hm | hm
  · simp [hm] at h1
  · exact of_decide_eq_true hm

mutual

/-- A guard once set is never overwritten by the walker. -/
lemma walkNode_guard_pres (mode : Nat) (tr faster : Bool) (env : FEnv)
    (pd : Bool) (sf df : String) (src : SNode) (dst : DNode) (st : WSt)
    (h : st.guard ≠ (0, 0)) :
    (walkNode mode tr faster env pd sf df src dst st).st.guard = st.guard := by
  obtain ⟨sid, sentries⟩ := src
  rw [walkNode.eq_def]
  have hwe : ∀ (d2 : DNode) (stx : WSt), stx.guard ≠ (0, 0) →
      (walkEntries mode tr faster env sentries d2 stx).st.guard = stx.guard :=
    fun d2 stx hx => walkEntries_guard_pres mode tr faster env sentries d2 stx hx
  try dsimp only
  split_ifs
  all_goals
    first
      | rfl
      | exact absurd ‹st.guard = (0, 0)› h
      | exact hwe _ _ h
termination_by sizeOf src

/-- A guard once set is never overwritten by the entry loop. -/
lemma walkEntries_guard_pres (mode : Nat) (tr faster : Bool) (env : FEnv)
    (entries : List (String × SEntry)) (dst : DNode) (st : WSt)
    (h : st.guard ≠ (0, 0)) :
    (walkEntries mode tr faster env entries dst st).st.guard = st.guard := by
  match entries with
  | [] => simp [walkEntries]
  | (name, ent) :: rest =>
    rw [walkEntries.eq_def]
    have hwe2 : ∀ (d2 : DNode) (stx : WSt), stx.guard ≠ (0, 0) →
        (walkEntries mode tr faster env rest d2 stx).st.guard = stx.guard :=
      fun d2 stx hx => walkEntries_guard_pres mode tr faster env rest d2 stx hx
    rcases ent with ⟨snap, bytes⟩ | sub
    · try dsimp only
      split_ifs
      all_goals
        first
          | rfl
          | exact hwe2 _ _ h
    · have hrn : ∀ (d2 : DNode) (stx : WSt), stx.guard ≠ (0, 0) →
          (walkNode mode tr faster env true "" "" sub d2 stx).st.guard =
            stx.guard :=
        fun d2 stx hx =>
          walkNode_guard_pres mode tr faster env true "" "" sub d2 stx hx
      try dsimp only
      split_ifs
      all_goals
        first
          | rfl
          | exact hwe2 _ _ h
          | exact hrn _ _ h
          | (rw [hwe2 _ _ (by rw [hrn _ _ h]; exact h)]; exact hrn _ _ h)
termination_by sizeOf entries

end

/-- The circular check aborts before anything in the directory is touched:
when the source identity equals the recorded guard the call returns the
Circular error with an empty trace and an unchanged destination and
state. -/
lemma walkNode_circular (mode : Nat) (tr faster : Bool) (env : FEnv)
    (sf df : String) (sid : Nat × Nat) (sentries : List (String × SEntry))
    (dst : DNode) (st : WSt) (h : sid = st.guard) :
    walkNode mode tr faster env true sf df (SNode.node sid sentries) dst st =
      ⟨ERROR_TCPY_CIRC, [], dst, st⟩ := by
  rw [walkNode.eq_def]
  simp [h]

/-- With the guard still unset, a walk of a directory pair with distinct
paths records the identity of this first destination root and keeps it to
the end. -/
lemma walkNode_guard_recorded (mode : Nat) (tr faster : Bool) (env : FEnv)
    (sf df : String) (sid : Nat × Nat) (sentries : List (String × SEntry))
    (dst : DNode) (st : WSt) (h0 : st.guard = (0, 0)) (hsid : sid ≠ (0, 0))
    (hdst : dst.id ≠ (0, 0)) :
    (walkNode mode tr faster env true sf df (SNode.node sid sentries) dst
      st).st.guard = dst.id := by
  have hne : ¬(sid = st.guard) := by
    rw [h0]
    exact hsid
  rw [walkNode.eq_def]
  try dsimp only
  split_ifs
  all_goals
    first
      | rfl
      | exact absurd ‹sid = st.guard› hne
      | exact absurd h0 ‹¬st.guard = (0, 0)›
      | exact absurd rfl ‹¬true = true›
      | exact walkEntries_guard_pres mode tr faster env sentries dst
          ⟨dst.id, st.g⟩ hdst

/-- C7: the traversal guard is recorded at most once, from the first
destination root resolved while it is still unset, and never overwritten
afterwards; and at every recursion level a source directory whose identity
equals the recorded guard aborts with the Circular error and an empty
trace, before any file is read or written. -/
theorem c7_traversal_guard_once_and_circular_abort :
    (∀ (mode : Nat) (tr faster : Bool) (env : FEnv) (sf df : String)
      (sid : Nat × Nat) (sentries : List (String × SEntry)) (dst : DNode)
      (st : WSt), sid = st.guard →
      walkNode mode tr faster env true sf df (SNode.node sid sentries) dst st =
        ⟨ERROR_TCPY_CIRC, [], dst, st⟩) ∧
    (∀ (mode : Nat) (tr faster : Bool) (env : FEnv) (pd : Bool) (sf df : String)
      (src : SNode) (dst : DNode) (st : WSt), st.guard ≠ (0, 0) →
      (walkNode mode tr faster env pd sf df src dst st).st.guard = st.guard) ∧
    (∀ (mode : Nat) (tr faster : Bool) (env : FEnv) (sf df : String)
      (sid : Nat × Nat) (sentries : List (String × SEntry)) (dst : DNode)
      (st : WSt), st.guard = (0, 0) → sid ≠ (0, 0) → dst.id ≠ (0, 0) →
      (walkNode mode tr faster env true sf df (SNode.node sid sentries) dst
        st).st.guard = dst.id) :=
  ⟨fun mode tr faster env sf df sid sentries dst st h =>
    walkNode_circular mode tr faster env sf df sid sentries dst st h,
   fun mode tr faster env pd sf df src dst st h =>
    walkNode_guard_pres mode tr faster env pd sf df src dst st h,
   fun mode tr faster env sf df sid sentries dst st h0 h1 h2 =>
    walkNode_guard_recorded mode tr faster env sf df sid sentries dst st h0 h1 h2⟩

theorem c7_traversal_guard_witness :
    (walkNode MODE_COPY false false
        ⟨true, true, true, true, true, true, true, none, true, true, true, true, []⟩
        true "" "" (SNode.node (3, 4) [("a", SEntry.file ⟨1, 2, 3⟩ [7])])
        (DNode.node (9, 9) []) ⟨(3, 4), ⟨⟨0, 0⟩, 0, 0, 0⟩⟩ =
      ⟨ERROR_TCPY_CIRC, [], DNode.node (9, 9) [],
        ⟨(3, 4), ⟨⟨0, 0⟩, 0, 0, 0⟩⟩⟩) ∧
    ((walkNode MODE_COPY false false
        ⟨true, true, true, true, true, true, true, none, true, true, true, true, []⟩
        true "" "" (SNode.node (1, 2) []) (DNode.node (9, 9) [])
        ⟨(5, 6), ⟨⟨0, 0⟩, 0, 0, 0⟩⟩).st.guard = (5, 6)) ∧
    ((walkNode MODE_COPY false false
        ⟨true, true, true, true, true, true, true, none, true, true, true, true, []⟩
        true "" "" (SNode.node (1, 2) []) (DNode.node (9, 9) [])
        ⟨(0, 0), ⟨⟨0, 0⟩, 0, 0, 0⟩⟩).st.guard = (9, 9)) :=
  ⟨c7_traversal_guard_once_and_circular_abort.1 MODE_COPY false false
      ⟨true, true, true, true, true, true, true, none, true, true, true, true, []⟩
      "" "" (3, 4) [("a", SEntry.file ⟨1, 2, 3⟩ [7])] (DNode.node (9, 9) [])
      ⟨(3, 4), ⟨⟨0, 0⟩, 0, 0, 0⟩⟩ rfl,
   c7_traversal_guard_once_and_circular_abort.2.1 MODE_COPY false false
      ⟨true, true, true, true, true, true, true, none, true, true, true, true, []⟩
      true "" "" (SNode.node (1, 2) []) (DNode.node (9, 9) [])
      ⟨(5, 6), ⟨⟨0, 0⟩, 0, 0, 0⟩⟩ (by decide),
   c7_traversal_guard_once_and_circular_abort.2.2 MODE_COPY false false
      ⟨true, true, true, true, true, true, true, none, true, true, true, true, []⟩
      "" "" (1, 2) [] (DNode.node (9, 9) []) ⟨(0, 0), ⟨⟨0, 0⟩, 0, 0, 0⟩⟩
      rfl (by decide) (by decide)⟩

lemma loopEv_not_mirror (e : Ev) (h : isLoopEv e = true) : isMirrorEv e = false := by
  cases e <;> simp_all [isLoopEv, isMirrorEv]

lemma copyLoop_no_mirror (faster writesOk : Bool) (durs pending : List Nat)
    (thr : ThrState) (chk : Nat) (written : List Nat) (cb tb : Nat) :
    ((copyLoop faster writesOk durs pending thr chk written cb tb).trace.all
      (fun e => !isMirrorEv e)) = true := by
  have h := copyLoopF_trace_loopEvs faster writesOk (pending.length + 1) durs
    pending thr chk written cb tb
  unfold copyLoop
  rw [List.all_eq_true] at h ⊢
  intro e he
  have h2 := h e he
  simp only [loopEv_not_mirror e h2]
  rfl

lemma staleDelete_no_mirror (tr : Bool) (env : FEnv) (s d : Snap) (de : Bool)
    (cs cd : Nat) (dst : Option DFile) :
    ((staleDelete tr env s d de cs cd dst).2.1.all
      (fun e => !isMirrorEv e)) = true := by
  unfold staleDelete
  split_ifs <;> simp [isMirrorEv]

set_option maxHeartbeats 1000000 in
lemma copyBlock_no_mirror (tr faster : Bool) (env : FEnv) (snap : Snap)
    (bytes : List Nat) (cs : Nat) (dst : Option DFile) (thr : ThrState)
    (cb tb : Nat) :
    ((copyBlock tr faster env snap bytes cs dst thr cb tb).trace.all
      (fun e => !isMirrorEv e)) = true := by
  have hL := copyLoop_no_mirror faster env.writesOk env.durs bytes thr 0 [] cb tb
  unfold copyBlock
  split_ifs <;> simp_all [List.all_append, isMirrorEv, ERROR_TCPY]
  all_goals (split_ifs <;> simp_all [List.all_append, isMirrorEv, ERROR_TCPY])
  all_goals
    intro a ha
    rcases ha with ha | ha
    · exact hL a ha
    · rcases ha with rfl | rfl <;> rfl

lemma verifyBlock_no_mirror (tr : Bool) (env : FEnv) (sc : Nat)
    (d : Option DFile) :
    ((verifyBlock tr env sc d).2.1.all (fun e => !isMirrorEv e)) = true := by
  unfold verifyBlock
  split_ifs <;> simp_all [isMirrorEv, ERROR_TCPY]
  all_goals (split_ifs <;> simp_all [isMirrorEv, ERROR_TCPY])

lemma moveDelete_no_mirror (mode : Nat) (tr : Bool) (env : FEnv) :
    ((moveDelete mode tr env).2.1.all (fun e => !isMirrorEv e)) = true := by
  unfold moveDelete
  split_ifs <;> simp [isMirrorEv]

lemma bookkeeping_no_mirror (faster : Bool) (g : Globals) :
    ((bookkeeping faster g).1.all (fun e => !isMirrorEv e)) = true := by
  unfold bookkeeping
  split_ifs <;> simp_all [isMirrorEv]
  all_goals (split_ifs <;> simp_all [isMirrorEv])

/-- The copy-and-verify step never emits a mirror-cleanup event. -/
lemma tcfStep5_no_mirror (tr faster : Bool) (snap : Snap) (bytes : List Nat)
    (dst : Option DFile) (env : FEnv) (g : Globals) (t1 : List Ev) (cs cd : Nat)
    (h : (t1.all (fun e => !isMirrorEv e)) = true) :
    ((tcfStep5 tr faster snap bytes dst env g t1 cs cd).2.1.all
      (fun e => !isMirrorEv e)) = true := by
  unfold tcfStep5
  dsimp only
  by_cases hdf : (snap.size ≠ ((dst.map DFile.snap).getD ⟨0, 0, 0⟩).size ∨
      snap.sec ≠ ((dst.map DFile.snap).getD ⟨0, 0, 0⟩).sec ∨
      snap.nsec ≠ ((dst.map DFile.snap).getD ⟨0, 0, 0⟩).nsec ∨ cs ≠ cd)
  · rw [if_pos hdf]
    rcases hsd : staleDelete tr env snap ((dst.map DFile.snap).getD ⟨0, 0, 0⟩)
        dst.isSome cs cd dst with ⟨e2, t2, dst2⟩
    have ht2 := staleDelete_no_mirror tr env snap
      ((dst.map DFile.snap).getD ⟨0, 0, 0⟩) dst.isSome cs cd dst
    rw [hsd] at ht2
    simp only at ht2
    dsimp only
    by_cases he2 : e2 = 0
    · rw [if_neg (by simp [he2])]
      rcases hcb : copyBlock tr faster env snap bytes cs dst2
          g.thr g.copyBytes g.totalBytes with ⟨e3, t3, dst3, thr3, cb3, tb3, sChk3⟩
      have ht3 := copyBlock_no_mirror tr faster env snap bytes cs dst2
        g.thr g.copyBytes g.totalBytes
      rw [hcb] at ht3
      simp only at ht3
      dsimp only
      by_cases he3 : e3 = 0
      · rw [if_neg (by simp [he3])]
        rcases hvb : verifyBlock tr env sChk3 dst3 with ⟨e4, t4, dst4, v4⟩
        have ht4 := verifyBlock_no_mirror tr env sChk3 dst3
        rw [hvb] at ht4
        simp only at ht4
        dsimp only
        simp_all [List.all_append]
      · rw [if_pos he3]
        dsimp only
        simp_all [List.all_append]
    · rw [if_pos he2]
      dsimp only
      simp_all [List.all_append]
  · rw [if_neg hdf]
    dsimp only
    simpa using h

/-- The TimedCopyFile tail never emits a mirror-cleanup event. -/
lemma tcfTail_no_mirror (mode : Nat) (tr faster : Bool) (env : FEnv)
    (s5 : Nat × List Ev × Option DFile × Globals × Bool)
    (h : (s5.2.1.all (fun e => !isMirrorEv e)) = true) :
    ((tcfTail mode tr faster env s5).trace.all (fun e => !isMirrorEv e)) = true := by
  obtain ⟨e5, t5, dst5, g5, vOk⟩ := s5
  simp only at h
  unfold tcfTail
  dsimp only
  by_cases he5 : e5 = 0
  · rw [if_neg (by simp [he5])]
    rcases hmv : moveDelete mode tr env with ⟨e6, t6, sAf⟩
    have ht6 := moveDelete_no_mirror mode tr env
    rw [hmv] at ht6
    simp only at ht6
    dsimp only
    have hbk := bookkeeping_no_mirror faster g5
    rcases hbk2 : bookkeeping faster g5 with ⟨t7, g7⟩
    rw [hbk2] at hbk
    simp only at hbk
    by_cases he6 : e6 = 0
    · rw [if_neg (by simp [he6])]
      dsimp only
      simp_all [List.all_append]
    · rw [if_pos he6]
      dsimp only
      simp_all [List.all_append]
  · rw [if_pos he5]
    dsimp only
    simpa using h

/-- TimedCopyFile never emits a mirror-cleanup event. -/
lemma tcf_no_mirror (mode : Nat) (tr faster ex : Bool) (snap : Snap)
    (bytes : List Nat) (dst : Option DFile) (env : FEnv) (g : Globals) :
    ((timedCopyFile mode tr faster ex snap bytes dst env g).trace.all
      (fun e => !isMirrorEv e)) = true := by
  rcases ex
  · simp [timedCopyFile]
  · rw [tcf_decompose]
    dsimp only
    by_cases hg : (snap.size ≠ 0 ∧
        ((dst.map DFile.snap).getD ⟨0, 0, 0⟩).size ≠ 0 ∧
        snap.size = ((dst.map DFile.snap).getD ⟨0, 0, 0⟩).size)
    · rcases tr
      · rw [if_pos hg, if_neg (show ¬(false = true) from by simp)]
        by_cases hco : env.chkOpensOk = true
        · rw [if_pos hco]
          dsimp only
          rw [if_neg (show ¬((0:Nat) ≠ 0) from by simp)]
          exact tcfTail_no_mirror mode false faster env _
            (tcfStep5_no_mirror false faster snap bytes dst env g _ _ _
              (by simp [isMirrorEv]))
        · rw [if_neg hco]
          dsimp only
          rw [if_pos (show ERROR_TCPY ≠ 0 from by decide)]
          simp [isMirrorEv]
      · rw [if_pos hg, if_pos rfl]
        dsimp only
        rw [if_neg (show ¬((0:Nat) ≠ 0) from by simp)]
        exact tcfTail_no_mirror mode true faster env _
          (tcfStep5_no_mirror true faster snap bytes dst env g _ _ _
            (by simp [isMirrorEv]))
    · rw [if_neg hg]
      dsimp only
      rw [if_neg (show ¬((0:Nat) ≠ 0) from by simp)]
      exact tcfTail_no_mirror mode tr faster env _
        (tcfStep5_no_mirror tr faster snap bytes dst env g _ _ _ (by simp))

/-- A walk given an explicit source filename transfers that one file and
never reaches the mirror-cleanup pass: no mirror event is emitted. -/
lemma walkNode_file_no_mirror (mode : Nat) (tr faster : Bool) (env : FEnv)
    (pd : Bool) (sf df : String) (src : SNode) (dst : DNode) (st : WSt)
    (h : sf ≠ "") :
    ((walkNode mode tr faster env pd sf df src dst st).trace.all
      (fun e => !isMirrorEv e)) = true := by
  obtain ⟨sid, sentries⟩ := src
  rw [walkNode.eq_def]
  have htcf : ∀ (ex : Bool) (snap : Snap) (bytes : List Nat) (d : Option DFile)
      (gg : Globals), ((timedCopyFile mode tr faster ex snap bytes d env
        gg).trace.all (fun e => !isMirrorEv e)) = true :=
    fun ex snap bytes d gg => tcf_no_mirror mode tr faster ex snap bytes d env gg
  rcases hls : lookupS sentries sf with _ | se
  · simp only [hls]
    try dsimp only
    split_ifs
    all_goals
      first
        | rfl
        | exact htcf _ _ _ _ _
        | exact absurd h ‹¬sf ≠ ""›
  · rcases se with ⟨snap, bytes⟩ | sub
    all_goals simp only [hls]
    all_goals try dsimp only
    all_goals split_ifs
    all_goals
      first
        | rfl
        | exact htcf _ _ _ _ _
        | exact absurd h ‹¬sf ≠ ""›

/-- Mirror cleanup leaves every destination file with a same-named regular
source file untouched. -/
lemma mirrorCleanup_preserved (mu : Bool) (srcE : List (String × SEntry))
    (name : String) :
    ∀ es : List (String × DEntry), srcHasRegFile srcE name = true →
      getFileD ((mirrorCleanup false mu srcE es).2) name = getFileD es name := by
  intro es hname
  induction es with
  | nil => simp [mirrorCleanup]
  | cons p rest ih =>
    obtain ⟨n, e⟩ := p
    simp only [mirrorCleanup]
    rcases hmc : mirrorCleanup false mu srcE rest with ⟨t, es2⟩
    rw [hmc] at ih
    simp only at ih
    rcases e with f | sub
    · try dsimp only
      by_cases hs : srcHasRegFile srcE n = true
      · rw [if_pos hs]
        dsimp only
        by_cases hnn : n = name
        · simp [getFileD, lookupD, hnn]
        · simp only [getFileD, lookupD, if_neg hnn]
          exact ih
      · rw [if_neg hs]
        try dsimp only
        have hnn : ¬(n = name) := by
          intro hq
          rw [hq] at hs
          exact hs hname
        split_ifs
        all_goals try dsimp only
        all_goals
          first
            | exact ih
            | (simp only [getFileD, lookupD, if_neg hnn]; exact ih)
    · try dsimp only
      by_cases hnn : n = name
      · simp [getFileD, lookupD, hnn]
      · simp only [getFileD, lookupD, if_neg hnn]
        exact ih

/-- When the deletes succeed, mirror cleanup removes every destination
regular file with no same-named regular source file. -/
lemma mirrorCleanup_deleted (srcE : List (String × SEntry)) (name : String) :
    ∀ es : List (String × DEntry), srcHasRegFile srcE name = false →
      getFileD ((mirrorCleanup false true srcE es).2) name = none := by
  intro es hname
  induction es with
  | nil => simp [mirrorCleanup, getFileD, lookupD]
  | cons p rest ih =>
    obtain ⟨n, e⟩ := p
    simp only [mirrorCleanup]
    rcases hmc : mirrorCleanup false true srcE rest with ⟨t, es2⟩
    rw [hmc] at ih
    simp only at ih
    rcases e with f | sub
    · try dsimp only
      by_cases hs : srcHasRegFile srcE n = true
      · rw [if_pos hs]
        have hnn : ¬(n = name) := by
          intro hq
          rw [hq] at hs
          rw [hname] at hs
          exact Bool.false_ne_true hs
        dsimp only
        simp only [getFileD, lookupD, if_neg hnn]
        exact ih
      · rw [if_neg hs]
        try dsimp only
        split_ifs with hcond
        all_goals try dsimp only
        all_goals
          first
            | exact ih
            | contradiction
            | simp_all
    · try dsimp only
      by_cases hnn : n = name
      · simp [getFileD, lookupD, hnn]
      · simp only [getFileD, lookupD, if_neg hnn]
        exact ih

/-- When the mirror unlink fails, the destination entries survive
unchanged: the failure is a warning, not an abort. -/
lemma mirrorCleanup_fail_keeps (srcE : List (String × SEntry)) :
    ∀ es : List (String × DEntry),
      (mirrorCleanup false false srcE es).2 = es := by
  intro es
  induction es with
  | nil => simp [mirrorCleanup]
  | cons p rest ih =>
    obtain ⟨n, e⟩ := p
    simp only [mirrorCleanup]
    rcases hmc : mirrorCleanup false false srcE rest with ⟨t, es2⟩
    rw [hmc] at ih
    simp only at ih
    rcases e with f | sub
    · try dsimp only
      split_ifs <;> simp_all
    · simp [ih]

/-- C8: mirror cleanup on a whole directory deletes exactly the
destination regular files with no same-named regular source counterpart, a
failing deletion is a warning that leaves the entry and aborts nothing,
and a job for one explicit file never emits a mirror-cleanup event; on the
spec example source (a, b), destination (a, b, c), the run succeeds, c is
deleted and a and b are untouched, while with a failing unlink the run
still succeeds, keeps c and warns. -/
theorem c8_mirror_cleanup_deletes_unmatched :
    (∀ (mu : Bool) (srcE : List (String × SEntry)) (name : String)
      (es : List (String × DEntry)), srcHasRegFile srcE name = true →
      getFileD ((mirrorCleanup false mu srcE es).2) name = getFileD es name) ∧
    (∀ (srcE : List (String × SEntry)) (name : String)
      (es : List (String × DEntry)), srcHasRegFile srcE name = false →
      getFileD ((mirrorCleanup false true srcE es).2) name = none) ∧
    (∀ (srcE : List (String × SEntry)) (es : List (String × DEntry)),
      (mirrorCleanup false false srcE es).2 = es) ∧
    (∀ (mode : Nat) (tr faster : Bool) (env : FEnv) (pd : Bool)
      (sf df : String) (src : SNode) (dst : DNode) (st : WSt), sf ≠ "" →
      ((walkNode mode tr faster env pd sf df src dst st).trace.all
        (fun e => !isMirrorEv e)) = true) ∧
    ((walkNode MODE_MIRROR false false
        ⟨true, true, true, true, true, true, true, none, true, true, true, true, []⟩
        true "" ""
        (SNode.node (1, 2) [("a", SEntry.file ⟨1, 5, 5⟩ [10]),
          ("b", SEntry.file ⟨1, 6, 6⟩ [20])])
        (DNode.node (3, 4) [("a", DEntry.file ⟨⟨1, 5, 5⟩, [10]⟩),
          ("b", DEntry.file ⟨⟨1, 6, 6⟩, [20]⟩),
          ("c", DEntry.file ⟨⟨1, 7, 7⟩, [30]⟩)])
        ⟨(0, 0), ⟨⟨0, 0⟩, 0, 0, 0⟩⟩).err = 0 ∧
      getFileD (walkNode MODE_MIRROR false false
        ⟨true, true, true, true, true, true, true, none, true, true, true, true, []⟩
        true "" ""
        (SNode.node (1, 2) [("a", SEntry.file ⟨1, 5, 5⟩ [10]),
          ("b", SEntry.file ⟨1, 6, 6⟩ [20])])
        (DNode.node (3, 4) [("a", DEntry.file ⟨⟨1, 5, 5⟩, [10]⟩),
          ("b", DEntry.file ⟨⟨1, 6, 6⟩, [20]⟩),
          ("c", DEntry.file ⟨⟨1, 7, 7⟩, [30]⟩)])
        ⟨(0, 0), ⟨⟨0, 0⟩, 0, 0, 0⟩⟩).dst.entries "c" = none ∧
      getFileD (walkNode MODE_MIRROR false false
        ⟨true, true, true, true, true, true, true, none, true, true, true, true, []⟩
        true "" ""
        (SNode.node (1, 2) [("a", SEntry.file ⟨1, 5, 5⟩ [10]),
          ("b", SEntry.file ⟨1, 6, 6⟩ [20])])
        (DNode.node (3, 4) [("a", DEntry.file ⟨⟨1, 5, 5⟩, [10]⟩),
          ("b", DEntry.file ⟨⟨1, 6, 6⟩, [20]⟩),
          ("c", DEntry.file ⟨⟨1, 7, 7⟩, [30]⟩)])
        ⟨(0, 0), ⟨⟨0, 0⟩, 0, 0, 0⟩⟩).dst.entries "a" =
        some ⟨⟨1, 5, 5⟩, [10]⟩ ∧
      getFileD (walkNode MODE_MIRROR false false
        ⟨true, true, true, true, true, true, true, none, true, true, true, true, []⟩
        true "" ""
        (SNode.node (1, 2) [("a", SEntry.file ⟨1, 5, 5⟩ [10]),
          ("b", SEntry.file ⟨1, 6, 6⟩ [20])])
        (DNode.node (3, 4) [("a", DEntry.file ⟨⟨1, 5, 5⟩, [10]⟩),
          ("b", DEntry.file ⟨⟨1, 6, 6⟩, [20]⟩),
          ("c", DEntry.file ⟨⟨1, 7, 7⟩, [30]⟩)])
        ⟨(0, 0), ⟨⟨0, 0⟩, 0, 0, 0⟩⟩).dst.entries "b" =
        some ⟨⟨1, 6, 6⟩, [20]⟩ ∧
      Ev.mirrorUnlink ∈ (walkNode MODE_MIRROR false false
        ⟨true, true, true, true, true, true, true, none, true, true, true, true, []⟩
        true "" ""
        (SNode.node (1, 2) [("a", SEntry.file ⟨1, 5, 5⟩ [10]),
          ("b", SEntry.file ⟨1, 6, 6⟩ [20])])
        (DNode.node (3, 4) [("a", DEntry.file ⟨⟨1, 5, 5⟩, [10]⟩),
          ("b", DEntry.file ⟨⟨1, 6, 6⟩, [20]⟩),
          ("c", DEntry.file ⟨⟨1, 7, 7⟩, [30]⟩)])
        ⟨(0, 0), ⟨⟨0, 0⟩, 0, 0, 0⟩⟩).trace) ∧
    ((walkNode MODE_MIRROR false false
        ⟨true, true, true, true, true, true, true, none, true, true, true, false, []⟩
        true "" ""
        (SNode.node (1, 2) [("a", SEntry.file ⟨1, 5, 5⟩ [10]),
          ("b", SEntry.file ⟨1, 6, 6⟩ [20])])
        (DNode.node (3, 4) [("a", DEntry.file ⟨⟨1, 5, 5⟩, [10]⟩),
          ("b", DEntry.file ⟨⟨1, 6, 6⟩, [20]⟩),
          ("c", DEntry.file ⟨⟨1, 7, 7⟩, [30]⟩)])
        ⟨(0, 0), ⟨⟨0, 0⟩, 0, 0, 0⟩⟩).err = 0 ∧
      getFileD (walkNode MODE_MIRROR false false
        ⟨true, true, true, true, true, true, true, none, true, true, true, false, []⟩
        true "" ""
        (SNode.node (1, 2) [("a", SEntry.file ⟨1, 5, 5⟩ [10]),
          ("b", SEntry.file ⟨1, 6, 6⟩ [20])])
        (DNode.node (3, 4) [("a", DEntry.file ⟨⟨1, 5, 5⟩, [10]⟩),
          ("b", DEntry.file ⟨⟨1, 6, 6⟩, [20]⟩),
          ("c", DEntry.file ⟨⟨1, 7, 7⟩, [30]⟩)])
        ⟨(0, 0), ⟨⟨0, 0⟩, 0, 0, 0⟩⟩).dst.entries "c" =
        some ⟨⟨1, 7, 7⟩, [30]⟩ ∧
      Ev.warnMirrorDelete ∈ (walkNode MODE_MIRROR false false
        ⟨true, true, true, true, true, true, true, none, true, true, true, false, []⟩
        true "" ""
        (SNode.node (1, 2) [("a", SEntry.file ⟨1, 5, 5⟩ [10]),
          ("b", SEntry.file ⟨1, 6, 6⟩ [20])])
        (DNode.node (3, 4) [("a", DEntry.file ⟨⟨1, 5, 5⟩, [10]⟩),
          ("b", DEntry.file ⟨⟨1, 6, 6⟩, [20]⟩),
          ("c", DEntry.file ⟨⟨1, 7, 7⟩, [30]⟩)])
        ⟨(0, 0), ⟨⟨0, 0⟩, 0, 0, 0⟩⟩).trace) :=
  ⟨fun mu srcE name es h => mirrorCleanup_preserved mu srcE name es h,
   fun srcE name es h => mirrorCleanup_deleted srcE name es h,
   fun srcE es => mirrorCleanup_fail_keeps srcE es,
   fun mode tr faster env pd sf df src dst st h =>
     walkNode_file_no_mirror mode tr faster env pd sf df src dst st h,
   by decide, by decide⟩

theorem c8_mirror_cleanup_witness :
    (srcHasRegFile [("a", SEntry.file ⟨1, 5, 5⟩ [10])] "a" = true ∧
      getFileD ((mirrorCleanup false true [("a", SEntry.file ⟨1, 5, 5⟩ [10])]
        [("a", DEntry.file ⟨⟨1, 5, 5⟩, [10]⟩)]).2) "a" =
        getFileD [("a", DEntry.file ⟨⟨1, 5, 5⟩, [10]⟩)] "a") ∧
    (srcHasRegFile [("a", SEntry.file ⟨1, 5, 5⟩ [10])] "c" = false ∧
      getFileD ((mirrorCleanup false true [("a", SEntry.file ⟨1, 5, 5⟩ [10])]
        [("c", DEntry.file ⟨⟨1, 7, 7⟩, [30]⟩)]).2) "c" = none) ∧
    ("a" ≠ "" ∧
      ((walkNode MODE_MIRROR false false
        ⟨true, true, true, true, true, true, true, none, true, true, true, true, []⟩
        true "a" "a" (SNode.node (1, 2) [("a", SEntry.file ⟨1, 5, 5⟩ [10])])
        (DNode.node (3, 4) []) ⟨(0, 0), ⟨⟨0, 0⟩, 0, 0, 0⟩⟩).trace.all
          (fun e => !isMirrorEv e)) = true) :=
  ⟨⟨by decide, c8_mirror_cleanup_deletes_unmatched.1 true
      [("a", SEntry.file ⟨1, 5, 5⟩ [10])] "a"
      [("a", DEntry.file ⟨⟨1, 5, 5⟩, [10]⟩)] (by decide)⟩,
   ⟨by decide, c8_mirror_cleanup_deletes_unmatched.2.1
      [("a", SEntry.file ⟨1, 5, 5⟩ [10])] "c"
      [("c", DEntry.file ⟨⟨1, 7, 7⟩, [30]⟩)] (by decide)⟩,
   ⟨by decide, c8_mirror_cleanup_deletes_unmatched.2.2.2.1 MODE_MIRROR false false
      ⟨true, true, true, true, true, true, true, none, true, true, true, true, []⟩
      true "a" "a" (SNode.node (1, 2) [("a", SEntry.file ⟨1, 5, 5⟩ [10])])
      (DNode.node (3, 4) []) ⟨(0, 0), ⟨⟨0, 0⟩, 0, 0, 0⟩⟩ (by decide)⟩⟩

end Tcpy
